import Mathlib

/-!
Shallow embedding of the terra-draw interaction core (drawing-mode state
machines and the feature store) used to settle the claims about the
specification.

Sources embedded directly:
  * `src/src/modes/circle.mode.ts`  (class `TerraDrawCircleMode`)
  * `src/src/modes/point/point.mode.ts` (class `TerraDrawPointMode`)

The feature store (`src/store/store.ts`), the mode base (`base.mode.ts`) and
the select mode (`select.mode.ts`) are not present under `src/`; only their
test files are.  Those parts are modelled from the spec (see the doc comments
starting with "Modelled from the spec:"), with observable behaviour pinned by
the test files `src/unnamed/part_000` (select mode) and `src/unnamed/part_002`
(circle mode) where the tests assert it.

Conventions of the embedding:
  * Longitude/latitude coordinates are rationals (`ℚ`); the floating-point
    values of the real code are a subset of the rationals, and no claim
    depends on rounding behaviour.
  * The geodesic circle polygon produced by `circle()` in
    `src/geometry/create-circle` is a deterministic function of the center and
    the radius; it is embedded symbolically as `Geometry.circleApprox center
    radiusKm`.  `haversineDistanceKilometers` is likewise deterministic and is
    passed as an explicit function parameter `dist` to the handlers that use
    it; no claim depends on its numeric values, only on how its result is
    used.
  * A thrown JavaScript error is an `Except`-style error value; the abstract
    error kinds of spec §7 are the constructors of `DrawError`.  (The
    `NotRegistered` kind concretely surfaces as an explicit
    `Error("Mode must be registered first")` in point mode and as a
    `TypeError` from accessing `this.store` when it is `undefined` in circle
    mode; both are modelled as `DrawError.notRegistered`.)
  * Store change batches and the `onSelect` / `onDeselect` / `onFinish`
    callbacks are recorded in an ordered emission log (`List Emit`), one
    entry per callback invocation, so temporal claims about callback order
    become claims about list order.
-/

/-- A longitude/latitude position, as in the GeoJSON `Position` type. -/
abbrev Pos : Type := ℚ × ℚ

/-- Mouse buttons of the normalised pointer event (spec §6). -/
inductive MouseButton where
  | left
  | right
  | middle
deriving Repr, DecidableEq

/-- The normalised pointer event shape consumed by the core (spec §6):
`{lng, lat, containerX, containerY, button, heldKeys}`.  Held keys are not
needed by any claim and are omitted. -/
structure MouseEvent where
  lng : ℚ
  lat : ℚ
  containerX : ℚ := 0
  containerY : ℚ := 0
  button : MouseButton := .left
deriving Repr, DecidableEq

/-- Geometry of a stored feature.  `circleApprox c r` stands for the closed
polygon ring that `circle({center: c, radiusKilometers: r})` deterministically
generates (`src/geometry/create-circle`); its trigonometric coordinates are
not needed by any claim, only the parameters that determine them. -/
inductive Geometry where
  | point (p : Pos)
  | lineString (coords : List Pos)
  | polygon (ring : List Pos)
  | circleApprox (center : Pos) (radiusKm : ℚ)
deriving Repr, DecidableEq

/-- Reserved, store-managed feature properties (spec §3): `mode`, `selected`,
and the back-references `parentId` / `index` carried by the overlay features
of the select mode. -/
structure Props where
  mode : String
  selected : Bool := false
  parentId : Option Nat := none
  index : Option Nat := none
deriving Repr, DecidableEq

/-- A stored GeoJSON feature: stable id, geometry, properties (spec §3).
Ids are abstract strings unique within the store; they are modelled as
naturals handed out by the store's counter. -/
structure Feature where
  id : Nat
  geometry : Geometry
  props : Props
deriving Repr, DecidableEq

/-- The abstract error kinds of spec §7. -/
inductive DrawError where
  | notRegistered
  | alreadyRegistered
  | illegalStateWrite
  | invalidGeometry
  | unknownId
  | invalidStyles
deriving Repr, DecidableEq

/-- The operation kind of a change batch delivered to `onChange` (spec §6). -/
inductive ChangeKind where
  | create
  | update
  | delete
deriving Repr, DecidableEq

/-- One observable callback invocation.  `change ids k` is one
`onChange(ids, k)` call; `select` / `deselect` / `finish` are the
corresponding coordinator callbacks (spec §6). -/
inductive Emit where
  | change (ids : List Nat) (k : ChangeKind)
  | select (id : Nat)
  | deselect (id : Nat)
  | finish (id : Nat)
deriving Repr, DecidableEq

/-- Modelled from the spec: the feature store of §4.B (`src/store/store.ts`
is not under `src/`).  An authoritative list of features keyed by id plus the
id counter used by `create`. -/
structure Store where
  features : List Feature
  nextId : Nat
deriving Repr, DecidableEq

/-- The empty store. -/
def Store.empty : Store := ⟨[], 0⟩

/-- Modelled from the spec: `has(id)` (spec §4.B). -/
def Store.has (s : Store) (i : Nat) : Bool :=
  s.features.any (fun f => f.id == i)

/-- Look a feature up by id (the copy-returning accessors `getGeometryCopy` /
`getPropertiesCopy` of spec §4.B read through this; copies are value-equal to
the stored feature, so deep copying needs no separate model). -/
def Store.getFeature (s : Store) (i : Nat) : Option Feature :=
  s.features.find? (fun f => f.id == i)

/-- Modelled from the spec: `create(entries[]) → id[]` (spec §4.B) assigns
collision-free ids from the counter and appends the new features.  The
`InvalidGeometry` validation is not exercised by any claim (every geometry a
claim creates is valid) and is omitted. -/
def Store.create (s : Store) (entries : List (Geometry × Props)) :
    List Nat × Store :=
  let ids := (List.range entries.length).map (fun i => s.nextId + i)
  let newFeats := (ids.zip entries).map
    (fun e => Feature.mk e.1 e.2.1 e.2.2)
  (ids, ⟨s.features ++ newFeats, s.nextId + entries.length⟩)

/-- Modelled from the spec: `updateGeometry(updates[])` (spec §4.B) replaces
the geometry of the given ids. -/
def Store.updateGeometry (s : Store) (ups : List (Nat × Geometry)) : Store :=
  ⟨s.features.map (fun f =>
      match ups.lookup f.id with
      | some g => { f with geometry := g }
      | none => f),
    s.nextId⟩

/-- Modelled from the spec: the `updateProperty` call the select mode issues
to toggle the reserved `selected` property of one feature (spec §4.B, §4.E.1). -/
def Store.updateSelected (s : Store) (i : Nat) (b : Bool) : Store :=
  ⟨s.features.map (fun f =>
      if f.id == i then { f with props := { f.props with selected := b } }
      else f),
    s.nextId⟩

/-- Modelled from the spec: `delete(ids[])` fails with `UnknownId` if any id
is missing (spec §4.B, §7). -/
def Store.delete (s : Store) (ids : List Nat) : Except DrawError Store :=
  if ids.all (fun i => s.has i) then
    .ok ⟨s.features.filter (fun f => !(ids.contains f.id)), s.nextId⟩
  else
    .error .unknownId

/-- `copyAll()` returns a deep-copy snapshot of all features (spec §4.B);
value-equal to the stored list. -/
def Store.copyAll (s : Store) : List Feature := s.features

namespace TerraDrawCircleMode

/-- The private fields of `TerraDrawCircleMode`
(`src/src/modes/circle.mode.ts` lines 17-19): `center`, `clickCount`,
`currentCircleId`.  The store handle supplied by `register` is passed to each
handler as an `Option Store` (`none` = unregistered, `this.store` is
`undefined`). -/
structure State where
  center : Option Pos := none
  clickCount : Nat := 0
  currentCircleId : Option Nat := none
deriving Repr, DecidableEq

/-- The state a freshly constructed circle mode starts in. -/
def State.init : State := {}

/-- Result of one circle-mode handler invocation: the mode state after the
call (including mutations made before a throw), the store handle, the ordered
emission log, and the error thrown to the caller, if any. -/
structure Result where
  state : State
  store : Option Store
  emits : List Emit
  err : Option DrawError := none
deriving Repr, DecidableEq

/-- `TerraDrawCircleMode.onClick` (`circle.mode.ts` lines 43-67).  First
click records the center and creates the starting circle of radius
0.00001 km; any later click resets `center`, `currentCircleId` and
`clickCount` ("Finish drawing") without touching the store and without
emitting anything.  On the first click with no store handle the field
`this.center` is written before `this.store.create` throws. -/
def onClick (e : MouseEvent) (ms : State) (store? : Option Store) : Result :=
  if ms.clickCount = 0 then
    let c : Pos := (e.lng, e.lat)
    match store? with
    | none =>
        { state := { ms with center := some c },
          store := none, emits := [], err := some .notRegistered }
    | some st =>
        let startingCircle := Geometry.circleApprox c (1 / 100000)
        let r := st.create [(startingCircle, { mode := "circle" })]
        { state := { center := some c, clickCount := ms.clickCount + 1,
                     currentCircleId := r.1.head? },
          store := some r.2,
          emits := [.change r.1 .create] }
  else
    { state := { center := none, clickCount := 0, currentCircleId := none },
      store := store?, emits := [] }

/-- `TerraDrawCircleMode.onMouseMove` (`circle.mode.ts` lines 68-84), with
`haversineDistanceKilometers` passed as the function parameter `dist`.  While
exactly one click has happened, the draft circle's geometry is replaced by
the circle around the recorded center whose radius is the distance from the
center to the cursor; otherwise nothing happens.  The unreachable combination
`clickCount = 1` with `center` or `currentCircleId` unset corresponds to an
`undefined` access in the source and is modelled as a thrown error. -/
def onMouseMove (dist : Pos → Pos → ℚ) (e : MouseEvent) (ms : State)
    (store? : Option Store) : Result :=
  if ms.clickCount = 1 then
    match ms.center, ms.currentCircleId, store? with
    | some c, some i, some st =>
        let distanceKm := dist c (e.lng, e.lat)
        let updatedCircle := Geometry.circleApprox c distanceKm
        { state := ms,
          store := some (st.updateGeometry [(i, updatedCircle)]),
          emits := [.change [i] .update] }
    | _, _, _ =>
        { state := ms, store := store?, emits := [],
          err := some .notRegistered }
  else
    { state := ms, store := store?, emits := [] }

/-- `TerraDrawCircleMode.cleanUp` (`circle.mode.ts` lines 93-100).  The
`store.delete` call sits in a `try { ... } catch (error) {}`: a missing store
handle (TypeError) or an unknown id (`UnknownId`) is swallowed.  In every
case the three private fields are reset to their initial values. -/
def cleanUp (ms : State) (store? : Option Store) : Result :=
  let del : Option Store × List Emit :=
    match store?, ms.currentCircleId with
    | some st, some i =>
        match st.delete [i] with
        | .ok st' => (some st', [.change [i] .delete])
        | .error _ => (some st, [])
    | some st, none => (some st, [])
    | none, _ => (none, [])
  { state := State.init, store := del.1, emits := del.2 }

end TerraDrawCircleMode

namespace TerraDrawPointMode

/-- `TerraDrawPointMode.onClick` (`point.mode.ts` lines 34-48): throws
`Error("Mode must be registered first")` when no store handle is present,
otherwise creates one point feature at the event position. -/
def onClick (e : MouseEvent) (store? : Option Store) :
    Option Store × List Emit × Option DrawError :=
  match store? with
  | none => (none, [], some .notRegistered)
  | some st =>
      let r := st.create
        [(Geometry.point (e.lng, e.lat), { mode := "point" })]
      (some r.2, [.change r.1 .create], none)

end TerraDrawPointMode

/-- A deterministic stand-in for `haversineDistanceKilometers` used by
concrete witnesses (the squared planar distance).  No claim depends on the
metric's values, only on the structure of the calls; witnesses instantiate
the `dist` parameter with this function. -/
def mockDist (a b : Pos) : ℚ :=
  (a.1 - b.1) ^ 2 + (a.2 - b.2) ^ 2

/-- Modelled from the spec: the publicly readable lifecycle `state` of the
mode base (`base.mode.ts` is not under `src/`).  The spec §4.C claims the
values {unregistered, registered, started, stopped}; the select-mode test
(`src/unnamed/part_000` lines 178-185, "can start correctly") additionally
pins the value `"selecting"` that select mode's `start()` assigns, so the
type carries all five observed values. -/
inductive LifecycleState where
  | unregistered
  | registered
  | started
  | selecting
  | stopped
deriving Repr, DecidableEq

/-- The string the public `state` getter returns for each lifecycle state
(the tests compare `mode.state` against these strings). -/
def LifecycleState.str : LifecycleState → String
  | .unregistered => "unregistered"
  | .registered => "registered"
  | .started => "started"
  | .selecting => "selecting"
  | .stopped => "stopped"

/-- The kinds of mode whose lifecycle the claims exercise. -/
inductive ModeKind where
  | point
  | circle
  | select
deriving Repr, DecidableEq

/-- The state a successful `start()` moves the mode to: `"started"` for the
draw modes (circle-mode test `src/unnamed/part_002` lines 80-87) and
`"selecting"` for the select mode (`src/unnamed/part_000` lines 178-185). -/
def startTarget : ModeKind → LifecycleState
  | .select => .selecting
  | _ => .started

/-- The lifecycle events a caller can invoke on a mode. -/
inductive LifecycleEvt where
  | register
  | start
  | stop
deriving Repr, DecidableEq

/-- Modelled from the spec: the lifecycle transitions of the mode base
(spec §4.C): `register` is single-use and fails `AlreadyRegistered` on
repeat; `start` and `stop` require a prior `register` and otherwise fail
`NotRegistered` (spec §7); pinned by the lifecycle tests of
`src/unnamed/part_000` lines 129-196 and `src/unnamed/part_002` lines
31-98. -/
def lifecycleStep (k : ModeKind) (s : LifecycleState) :
    LifecycleEvt → Except DrawError LifecycleState
  | .register =>
      if s = .unregistered then .ok .registered else .error .alreadyRegistered
  | .start =>
      if s = .unregistered then .error .notRegistered else .ok (startTarget k)
  | .stop =>
      if s = .unregistered then .error .notRegistered else .ok .stopped

/-- Run a sequence of lifecycle events; a call that throws leaves the state
unchanged (the exception propagates to the caller, the field is untouched). -/
def runLifecycle (k : ModeKind) (s : LifecycleState) :
    List LifecycleEvt → LifecycleState
  | [] => s
  | e :: es => runLifecycle k ((lifecycleStep k s e).toOption.getD s) es

/-- The lifecycle states a mode of kind `k` can ever be observed in:
the four states of the spec for the draw modes, with `started` replaced by
`selecting` for the select mode. -/
def allowedStates : ModeKind → List LifecycleState
  | .select => [.unregistered, .registered, .selecting, .stopped]
  | _ => [.unregistered, .registered, .started, .stopped]

namespace TerraDrawSelectMode

/-- Modelled from the spec: the per-geometry-kind coordinate flags of the
select mode (spec §4.E, "Flags"). -/
structure CoordinateFlags where
  draggable : Bool := false
  deletable : Bool := false
  midpoints : Bool := false
deriving Repr, DecidableEq

/-- Modelled from the spec: the `feature` block of a flags entry.  A present
`coordinates` block enables selection-point overlays (pinned by
`src/unnamed/part_000` lines 372-424: `coordinates: {draggable: false}`
already creates selection points). -/
structure FeatureFlags where
  draggable : Bool := false
  coordinates : Option CoordinateFlags := none
deriving Repr, DecidableEq

/-- Modelled from the spec: one flags entry for a mode name.  A missing
`feature` block means the geometry kind is not selectable (spec §4.E,
pinned by `src/unnamed/part_000` lines 230-238). -/
structure ModeFlags where
  feature : Option FeatureFlags := none
deriving Repr, DecidableEq

/-- Modelled from the spec: the select-mode constructor options used by the
claims: the flags mapping, `allowManualDeselection` (default true, spec
§4.E.1 case 6) and `pointerDistance` (default 40 px, spec glossary). -/
structure Options where
  flags : List (String × ModeFlags) := []
  allowManualDeselection : Bool := true
  pointerDistance : ℚ := 40
deriving Repr, DecidableEq

/-- The feature flags configured for a mode name, if any. -/
def Options.featureFlags (opts : Options) (mode : String) :
    Option FeatureFlags :=
  (opts.flags.lookup mode).bind (fun mf => mf.feature)

/-- The coordinate flags configured for a mode name, if any. -/
def Options.coordFlags (opts : Options) (mode : String) :
    Option CoordinateFlags :=
  (opts.featureFlags mode).bind (fun ff => ff.coordinates)

/-- A feature is selectable iff its `mode` property has a flags entry with a
`feature` block, and overlay features are never selectable themselves
(spec §3 invariant 6; overlay modes have no flags entry in any claim). -/
def Options.selectable (opts : Options) (f : Feature) : Bool :=
  (opts.featureFlags f.props.mode).isSome

/-- Modelled from the spec: the transient select-mode state: the currently
selected feature and the transient mapping to its overlay ids
(spec §9, "Overlay ↔ parent linkage"). -/
structure State where
  selected : Option Nat := none
  selectionPoints : List Nat := []
  midPoints : List Nat := []
deriving Repr, DecidableEq

/-- The state select mode starts in: nothing selected, no overlays. -/
def State.init : State := {}

/-- Squared pixel distance between two projected points.  All hit tests of
the spec compare a pixel distance against `pointerDistance`; comparing the
squares is equivalent and keeps the model rational. -/
def sqPx (p q : Pos) : ℚ :=
  (p.1 - q.1) ^ 2 + (p.2 - q.2) ^ 2

/-- Squared pixel distance from point `p` to the segment `a`-`b`
(the `pointToLineDistancePx` kernel of spec §4.A, squared). -/
def sqSegDist (p a b : Pos) : ℚ :=
  let abx := b.1 - a.1
  let aby := b.2 - a.2
  let apx := p.1 - a.1
  let apy := p.2 - a.2
  let len2 := abx ^ 2 + aby ^ 2
  let tnum := apx * abx + apy * aby
  if len2 = 0 then apx ^ 2 + apy ^ 2
  else if tnum ≤ 0 then apx ^ 2 + apy ^ 2
  else if len2 ≤ tnum then (p.1 - b.1) ^ 2 + (p.2 - b.2) ^ 2
  else (apx - (tnum / len2) * abx) ^ 2 + (apy - (tnum / len2) * aby) ^ 2

/-- The consecutive segments of a coordinate list. -/
def segmentsOf (coords : List Pos) : List (Pos × Pos) :=
  coords.zip coords.tail

/-- Modelled from the spec: `pointInPolygon` by ray casting, with points on
the boundary counting as inside (spec §4.A). -/
def pointInRing (p : Pos) (ring : List Pos) : Bool :=
  let segs := segmentsOf ring
  let onBoundary := segs.any (fun s => sqSegDist p s.1 s.2 == 0)
  let crossings := segs.foldl
    (fun acc s =>
      let a := s.1
      let b := s.2
      if (decide (a.2 > p.2) != decide (b.2 > p.2)) &&
          decide (p.1 < (b.1 - a.1) * (p.2 - a.2) / (b.2 - a.2) + a.1) then
        !acc
      else acc)
    false
  onBoundary || crossings

/-- Twice the signed area of triangle `a b c` (the orientation test used by
the segment-intersection check). -/
def orient (a b c : Pos) : ℚ :=
  (b.1 - a.1) * (c.2 - a.2) - (b.2 - a.2) * (c.1 - a.1)

/-- Strict (proper) crossing of segments `p1`-`p2` and `q1`-`q2`: each
segment's endpoints lie strictly on opposite sides of the other segment's
line, so touching at shared endpoints does not count (spec §4.A
`selfIntersects`). -/
def properInter (p1 p2 q1 q2 : Pos) : Bool :=
  decide (orient p1 p2 q1 * orient p1 p2 q2 < 0) &&
  decide (orient q1 q2 p1 * orient q1 q2 p2 < 0)

/-- Modelled from the spec: `selfIntersects(ring)` — the O(n²) segment-pair
check for a strict crossing, excluding shared endpoints (spec §4.A). -/
def selfIntersectsRing (ring : List Pos) : Bool :=
  let segs := segmentsOf ring
  (List.range segs.length).any (fun i =>
    (List.range segs.length).any (fun j =>
      decide (i < j) &&
      match segs[i]?, segs[j]? with
      | some s1, some s2 => properInter s1.1 s1.2 s2.1 s2.2
      | _, _ => false))

/-- Modelled from the spec: the §3 ring invariants a polygon must satisfy
after a vertex deletion — closed (first = last), at least 4 coordinates
after closure, and no self-intersection (spec §4.E.2). -/
def ringValid (ring : List Pos) : Bool :=
  decide (4 ≤ ring.length) &&
  (ring.head? == ring.getLast?) &&
  !(selfIntersectsRing ring)

/-- Remove vertex `i` from a closed ring (indices range over the ring without
its closing coordinate) and re-close the result (spec §4.E.2, "Delete that
vertex from the parent's ring"). -/
def deleteVertexClosed (ring : List Pos) (i : Nat) : List Pos :=
  let opened := ring.dropLast
  let opened' := opened.eraseIdx i
  match opened'.head? with
  | some h => opened' ++ [h]
  | none => []

/-- The positions at which selection-point overlays are created: every
coordinate of a line string, and every ring coordinate of a polygon except
the closing one, which is identical to the first (pinned by
`src/unnamed/part_000` lines 412-424 and 1370-1376); point features get no
selection points (lines 1045-1057 show only two change calls). -/
def selectionPointPositions : Geometry → List Pos
  | .polygon ring => ring.dropLast
  | .lineString coords => coords
  | _ => []

/-- The affine midpoint of two positions — the embedding's stand-in for the
great-circle midpoint of spec §4.A; no claim inspects midpoint coordinates,
only how many midpoints exist. -/
def midpointPos (a b : Pos) : Pos :=
  ((a.1 + b.1) / 2, (a.2 + b.2) / 2)

/-- The positions at which midpoint overlays are created: one per segment
(spec §3, "for midpoints, `segmentIndex`"). -/
def midpointPositions : Geometry → List Pos
  | .polygon ring => (segmentsOf ring).map (fun s => midpointPos s.1 s.2)
  | .lineString coords =>
      (segmentsOf coords).map (fun s => midpointPos s.1 s.2)
  | _ => []

/-- Delete a (possibly empty) list of overlay ids: no store call and no
change batch when the list is empty (pinned by `src/unnamed/part_000` lines
491-566: no delete batch appears when no selection points exist).  The ids
are the mode's own bookkeeping and are present in every reachable state, so
the `UnknownId` branch is dead; it leaves the store unchanged. -/
def deleteOverlays (st : Store) (ids : List Nat) : Store × List Emit :=
  if ids.isEmpty then (st, [])
  else
    match st.delete ids with
    | .ok st' => (st', [.change ids .delete])
    | .error _ => (st, [])

/-- Modelled from the spec: deselect the current feature, if any
(spec §4.E.1, "On deselect, delete overlay points and clear `selected`").
The batch order — `selected` set to false (update), selection points
deleted, midpoints deleted — is pinned by `src/unnamed/part_000` lines
640-804.  The `onDeselect` callback is emitted for the deselected id
(spec §4.E.1 case 4). -/
def deselectCurrent (ss : State) (st : Store) :
    State × Store × List Emit :=
  match ss.selected with
  | none => (ss, st, [])
  | some oldId =>
      let st1 := st.updateSelected oldId false
      let d1 := deleteOverlays st1 ss.selectionPoints
      let d2 := deleteOverlays d1.1 ss.midPoints
      (State.init, d2.1,
        [Emit.deselect oldId, Emit.change [oldId] .update]
          ++ d1.2 ++ d2.2)

/-- Create the overlay features for a newly selected feature per its
coordinate flags: selection points always (when a `coordinates` block is
configured), midpoints when the `midpoints` flag is set; each batch is one
`create` call and no call is made for an empty batch (pinned by
`src/unnamed/part_000` lines 372-489). -/
def createOverlays (cf : CoordinateFlags) (st : Store) (pid : Nat)
    (geom : Geometry) : List Nat × List Nat × Store × List Emit :=
  let ptsPos := selectionPointPositions geom
  let ptEntries := (List.range ptsPos.length).zip ptsPos |>.map
    (fun e => (Geometry.point e.2,
      { mode := "selection-point", parentId := some pid,
        index := some e.1 : Props }))
  let r1 := st.create ptEntries
  let ptEmit : List Emit :=
    if ptsPos.isEmpty then [] else [.change r1.1 .create]
  if cf.midpoints then
    let midPos := midpointPositions geom
    let midEntries := (List.range midPos.length).zip midPos |>.map
      (fun e => (Geometry.point e.2,
        { mode := "midpoint", parentId := some pid,
          index := some e.1 : Props }))
    let r2 := r1.2.create midEntries
    let midEmit : List Emit :=
      if midPos.isEmpty then [] else [.change r2.1 .create]
    (r1.1, r2.1, r2.2, ptEmit ++ midEmit)
  else
    (r1.1, [], r1.2, ptEmit)

/-- Modelled from the spec: select a feature (spec §4.E.1, "On selection,
set the feature's `selected` property to true (store updateProperty) and
create overlay points per flags").  Emits `onSelect(id)`, then the property
update batch, then the overlay create batches (batch order pinned by
`src/unnamed/part_000` lines 393-489). -/
def selectFeature (opts : Options) (st : Store) (nid : Nat) :
    State × Store × List Emit :=
  let st1 := st.updateSelected nid true
  let base : List Emit := [Emit.select nid, Emit.change [nid] .update]
  match st.getFeature nid with
  | none => ({ selected := some nid }, st1, base)
  | some f =>
      match opts.coordFlags f.props.mode with
      | none => ({ selected := some nid }, st1, base)
      | some cf =>
          let r := createOverlays cf st1 nid f.geometry
          ({ selected := some nid, selectionPoints := r.1,
             midPoints := r.2.1 },
            r.2.2.1, base ++ r.2.2.2)

/-- The cursor position in pixel space: the event's lng/lat run through the
injected `project` function. -/
def cursorPx (project : Pos → Pos) (e : MouseEvent) : Pos :=
  project (e.lng, e.lat)

/-- Find the first overlay id from `ids` whose stored point geometry lies
within `pointerDistance` pixels of the cursor, returning the overlay id and
its `index` property (spec §4.E.1 steps 1-2, §4.E.2). -/
def findOverlayHit (project : Pos → Pos) (pd : ℚ) (st : Store)
    (ids : List Nat) (cursor : Pos) : Option (Nat × Nat) :=
  ids.findSome? (fun i =>
    match st.getFeature i with
    | some ⟨_, .point p, props⟩ =>
        if sqPx cursor (project p) ≤ pd ^ 2 then
          some (i, props.index.getD 0)
        else none
    | _ => none)

/-- Whether the cursor hits feature `f` per its geometry kind (spec §4.E.1
step 3): a point within `pointerDistance` px of the projected cursor, a
line-string segment within `pointerDistance` px, or the event's lng/lat
inside (or on) the polygon's outer ring.  `lngLat` is the raw event
position; point and line tests run in pixel space through `project`. -/
def featureHit (project : Pos → Pos) (pd : ℚ) (lngLat : Pos)
    (f : Feature) : Bool :=
  let cursor := project lngLat
  match f.geometry with
  | .point p => decide (sqPx cursor (project p) ≤ pd ^ 2)
  | .lineString coords =>
      (segmentsOf coords).any (fun s =>
        decide (sqSegDist cursor (project s.1) (project s.2) ≤ pd ^ 2))
  | .polygon ring => pointInRing lngLat ring
  | .circleApprox _ _ => false

end TerraDrawSelectMode

namespace TerraDrawSelectMode

/-- Whether a feature's geometry is of the given coarse kind, used for the
selectability priority. -/
def geomKindIs : Geometry → Nat → Bool
  | .point _, 0 => true
  | .lineString _, 1 => true
  | .polygon _, 2 => true
  | _, _ => false

/-- Modelled from the spec: hit-test the selectable features at the event
position with selectability priority point > line > polygon (spec §4.E.1
step 3); within one kind, store order decides. -/
def hitTestFeatures (opts : Options) (project : Pos → Pos) (st : Store)
    (lngLat : Pos) : Option Nat :=
  let cands := st.features.filter (fun f => opts.selectable f)
  let firstOf (kind : Nat) : Option Nat :=
    (cands.find? (fun f =>
      geomKindIs f.geometry kind &&
        featureHit project opts.pointerDistance lngLat f)).map (fun f => f.id)
  match firstOf 0 with
  | some i => some i
  | none =>
      match firstOf 1 with
      | some i => some i
      | none => firstOf 2

/-- Insert a coordinate into a closed ring after position `segIdx` (spec
§4.E.1 step 2, "insert a new vertex at that midpoint into the parent's ring
at segmentIndex+1"). -/
def insertVertexClosed (ring : List Pos) (segIdx : Nat) (p : Pos) :
    List Pos :=
  ring.take (segIdx + 1) ++ [p] ++ ring.drop (segIdx + 1)

/-- Modelled from the spec: handling of a midpoint hit (spec §4.E.1 step 2):
insert the midpoint as a new vertex into the parent's ring, rebuild the
overlays, remain selected.  No claim exercises this branch. -/
def insertMidpointVertex (opts : Options) (ss : State) (st : Store)
    (pid : Nat) (segIdx : Nat) : State × Store × List Emit :=
  match st.getFeature pid with
  | some f =>
      match f.geometry with
      | .polygon ring =>
          match (segmentsOf ring)[segIdx]? with
          | some seg =>
              let newRing :=
                insertVertexClosed ring segIdx (midpointPos seg.1 seg.2)
              let st1 := st.updateGeometry [(pid, .polygon newRing)]
              let d1 := deleteOverlays st1 ss.selectionPoints
              let d2 := deleteOverlays d1.1 ss.midPoints
              match opts.coordFlags f.props.mode with
              | some cf =>
                  let r := createOverlays cf d2.1 pid (.polygon newRing)
                  ({ selected := some pid, selectionPoints := r.1,
                     midPoints := r.2.1 },
                    r.2.2.1,
                    [Emit.change [pid] .update] ++ d1.2 ++ d2.2 ++ r.2.2.2)
              | none => (ss, st, [])
          | none => (ss, st, [])
      | _ => (ss, st, [])
  | none => (ss, st, [])

/-- Modelled from the spec: the left-click semantics of spec §4.E.1.
Hit-testing order: the selection-point overlays (a hit changes nothing),
the midpoint overlays (a hit inserts a vertex), then the selectable
features; a hit on a different feature deselects the old one and selects
the new (case 4), a hit on the selected feature is a no-op (case 5), and a
miss deselects only when `allowManualDeselection` is set (case 6, pinned by
`src/unnamed/part_000` lines 299-355). -/
def onLeftClick (opts : Options) (project : Pos → Pos) (ss : State)
    (st : Store) (e : MouseEvent) : State × Store × List Emit :=
  let cursor := cursorPx project e
  match findOverlayHit project opts.pointerDistance st ss.selectionPoints
      cursor with
  | some _ => (ss, st, [])
  | none =>
    match findOverlayHit project opts.pointerDistance st ss.midPoints
        cursor with
    | some mh =>
        match ss.selected with
        | some pid => insertMidpointVertex opts ss st pid mh.2
        | none => (ss, st, [])
    | none =>
      match hitTestFeatures opts project st (e.lng, e.lat) with
      | some nid =>
          if ss.selected = some nid then (ss, st, [])
          else
            let d := deselectCurrent ss st
            let s := selectFeature opts d.2.1 nid
            (s.1, s.2.1, d.2.2 ++ s.2.2)
      | none =>
          if opts.allowManualDeselection then deselectCurrent ss st
          else (ss, st, [])

/-- Modelled from the spec: the right-click semantics of spec §4.E.2:
a right-click within `pointerDistance` px of a selection point of the
selected feature, with `coordinates.deletable` set, deletes that vertex
from the parent's ring; the result must still satisfy the §3 ring
invariants, otherwise the deletion is aborted silently — no store mutation,
nothing emitted (pinned by `src/unnamed/part_000` lines 934-983).  On
success the parent is updated and the overlays are rebuilt.  Right-clicks
that hit no selection point, or when `deletable` is unset, are side-effect-
free no-ops. -/
def onRightClick (opts : Options) (project : Pos → Pos) (ss : State)
    (st : Store) (e : MouseEvent) : State × Store × List Emit :=
  match ss.selected with
  | none => (ss, st, [])
  | some pid =>
    match findOverlayHit project opts.pointerDistance st ss.selectionPoints
        (cursorPx project e) with
    | none => (ss, st, [])
    | some vh =>
      match st.getFeature pid with
      | none => (ss, st, [])
      | some f =>
        match opts.coordFlags f.props.mode with
        | none => (ss, st, [])
        | some cf =>
          if !cf.deletable then (ss, st, [])
          else
            match f.geometry with
            | .polygon ring =>
                let newRing := deleteVertexClosed ring vh.2
                if !(ringValid newRing) then (ss, st, [])
                else
                  let st1 := st.updateGeometry [(pid, .polygon newRing)]
                  let d1 := deleteOverlays st1 ss.selectionPoints
                  let d2 := deleteOverlays d1.1 ss.midPoints
                  let r := createOverlays cf d2.1 pid (.polygon newRing)
                  ({ selected := some pid, selectionPoints := r.1,
                     midPoints := r.2.1 },
                    r.2.2.1,
                    [Emit.change [pid] .update] ++ d1.2 ++ d2.2 ++ r.2.2.2)
            | _ => (ss, st, [])

/-- Modelled from the spec: `TerraDrawSelectMode.onClick` dispatches on the
event button: left clicks run the §4.E.1 semantics, right clicks the §4.E.2
semantics, middle clicks do nothing. -/
def onClick (opts : Options) (project : Pos → Pos) (ss : State)
    (st : Store) (e : MouseEvent) : State × Store × List Emit :=
  match e.button with
  | .left => onLeftClick opts project ss st e
  | .right => onRightClick opts project ss st e
  | .middle => (ss, st, [])

/-- A configured style entry: either a literal value or a function of the
feature (spec §4.C, `styles`). -/
inductive StyleProp (α : Type) where
  | lit (v : α)
  | fn (f : Feature → α)

/-- Evaluate a style entry against a feature (spec §9, "Style functions":
literals behave as constant functions). -/
def StyleProp.resolve {α : Type} : StyleProp α → Feature → α
  | .lit v, _ => v
  | .fn g, f => g f

/-- Modelled from the spec: the select-mode style keys exercised by the
styling tests (`src/unnamed/part_000` lines 1897-1968); each is optionally a
literal or a function. -/
structure SelectStyles where
  selectedPolygonColor : Option (StyleProp String) := none
  selectedPolygonFillOpacity : Option (StyleProp ℚ) := none
  selectedPolygonOutlineColor : Option (StyleProp String) := none
  selectedPolygonOutlineWidth : Option (StyleProp ℚ) := none

/-- The resolved adapter styling for polygons. -/
structure ResolvedStyling where
  polygonFillColor : String
  polygonFillOpacity : ℚ
  polygonOutlineColor : String
  polygonOutlineWidth : ℚ
deriving Repr, DecidableEq

/-- The default styling (`getDefaultStyling`), pinned by the styling tests:
fill and outline colour `#3f97e0`, fill opacity 0.3; outline width default
4 as in the library's default styling. -/
def defaultStyling : ResolvedStyling :=
  { polygonFillColor := "#3f97e0", polygonFillOpacity := 3 / 10,
    polygonOutlineColor := "#3f97e0", polygonOutlineWidth := 4 }

/-- Modelled from the spec: `styleFeature(feature)` of the select mode
(spec §4.C): evaluates the configured style entries against the given
feature and merges the results with the default styling; the selected-
polygon keys apply exactly to selected polygon features (pinned by
`src/unnamed/part_000` lines 1897-1968: an unselected polygon resolves to
the defaults). -/
def styleFeature (styles : SelectStyles) (f : Feature) : ResolvedStyling :=
  if f.props.mode = "polygon" ∧ f.props.selected = true then
    { polygonFillColor :=
        (styles.selectedPolygonColor.map (fun p => p.resolve f)).getD
          defaultStyling.polygonFillColor,
      polygonFillOpacity :=
        (styles.selectedPolygonFillOpacity.map (fun p => p.resolve f)).getD
          defaultStyling.polygonFillOpacity,
      polygonOutlineColor :=
        (styles.selectedPolygonOutlineColor.map (fun p => p.resolve f)).getD
          defaultStyling.polygonOutlineColor,
      polygonOutlineWidth :=
        (styles.selectedPolygonOutlineWidth.map (fun p => p.resolve f)).getD
          defaultStyling.polygonOutlineWidth }
  else defaultStyling

end TerraDrawSelectMode

/-- The `project` function of the mock mode config used by the tests
(lng/lat to pixels at 40 px per degree); concrete witnesses instantiate the
`project` parameter with it. -/
def proj40 : Pos → Pos := fun p => (40 * p.1, 40 * p.2)

/-! ### Store lemmas shared by the claim theorems -/

/-- The id list of a store. -/
def Store.ids (s : Store) : List Nat := s.features.map (fun f => f.id)

theorem Store.has_iff (s : Store) (i : Nat) : s.has i = true ↔ i ∈ s.ids := by
  simp [Store.has, Store.ids, List.any_eq_true, List.mem_map]

theorem Store.ids_updateSelected (s : Store) (j : Nat) (b : Bool) :
    (s.updateSelected j b).ids = s.ids := by
  rcases s with ⟨fs, n⟩
  simp only [Store.updateSelected, Store.ids, List.map_map]
  induction fs with
  | nil => rfl
  | cons a t ih =>
      simp only [List.map_cons] at *
      rw [ih]
      by_cases h : (a.id == j) = true <;> simp [Function.comp, h]

theorem Store.nextId_updateSelected (s : Store) (j : Nat) (b : Bool) :
    (s.updateSelected j b).nextId = s.nextId := rfl

theorem Store.has_updateSelected (s : Store) (j : Nat) (b : Bool) (i : Nat) :
    (s.updateSelected j b).has i = s.has i := by
  by_cases h : s.has i = true
  · have := (Store.has_iff s i).mp h
    rw [h]
    exact (Store.has_iff _ i).mpr (by rw [Store.ids_updateSelected]; exact this)
  · have h2 : (s.updateSelected j b).has i ≠ true := by
      intro hc
      exact h ((Store.has_iff s i).mpr
        (by rw [← Store.ids_updateSelected s j b]; exact (Store.has_iff _ i).mp hc))
    simp only [Bool.not_eq_true] at h h2
    rw [h, h2]

theorem Store.getFeature_updateSelected_ne (s : Store) (j : Nat) (b : Bool)
    (i : Nat) (h : i ≠ j) :
    (s.updateSelected j b).getFeature i = s.getFeature i := by
  rcases s with ⟨fs, n⟩
  show List.find? (fun f => f.id == i)
      (fs.map (fun f => if f.id == j then
        { f with props := { f.props with selected := b } } else f)) =
    List.find? (fun f => f.id == i) fs
  rw [List.find?_map]
  have hcomp : ((fun f : Feature => f.id == i) ∘
      (fun f : Feature => if f.id == j then
        { f with props := { f.props with selected := b } } else f)) =
      (fun f : Feature => f.id == i) := by
    funext f
    by_cases hf : (f.id == j) = true <;> simp [Function.comp, hf]
  rw [hcomp]
  cases hfind : List.find? (fun f : Feature => f.id == i) fs with
  | none => rfl
  | some a =>
      have hai : a.id = i := by
        have := List.find?_some hfind
        simpa using this
      have haj : (a.id == j) = false := by
        simp only [beq_eq_false_iff_ne, ne_eq, hai]
        exact h
      simp only [Option.map_some']
      rw [if_neg (by simp only [beq_iff_eq] at haj ⊢; simpa using haj)]

theorem Store.create_fst (s : Store) (es : List (Geometry × Props)) :
    (s.create es).1 = (List.range es.length).map (fun i => s.nextId + i) :=
  rfl

theorem Store.create_nextId (s : Store) (es : List (Geometry × Props)) :
    (s.create es).2.nextId = s.nextId + es.length := rfl

theorem Store.create_ids (s : Store) (es : List (Geometry × Props)) :
    (s.create es).2.ids = s.ids ++ (s.create es).1 := by
  simp only [Store.create, Store.ids, List.map_append,
    List.append_cancel_left_eq, List.map_map]
  have h1 : ((fun f : Feature => f.id) ∘
      (fun e : Nat × (Geometry × Props) => Feature.mk e.1 e.2.1 e.2.2))
      = Prod.fst := by
    funext e; rfl
  rw [h1, List.map_fst_zip]
  simp

theorem Store.has_create (s : Store) (es : List (Geometry × Props)) (i : Nat)
    (h : i ∈ (s.create es).1) : (s.create es).2.has i = true := by
  rw [Store.has_iff, Store.create_ids]
  exact List.mem_append_right _ h

/-- A well-formed store hands out ids below its counter (every store built
by `create` from the empty store satisfies this). -/
def Store.wf (s : Store) : Bool := s.features.all (fun f => f.id < s.nextId)

theorem Store.mem_create_fst (s : Store) (es : List (Geometry × Props))
    (i : Nat) : i ∈ (s.create es).1 ↔ s.nextId ≤ i ∧ i < s.nextId + es.length := by
  rw [Store.create_fst]
  simp only [List.mem_map, List.mem_range]
  constructor
  · rintro ⟨j, hj, rfl⟩; omega
  · intro hi; exact ⟨i - s.nextId, by omega, by omega⟩

theorem Store.delete_ok (s : Store) (ids : List Nat)
    (h : ∀ i ∈ ids, s.has i = true) :
    s.delete ids = .ok ⟨s.features.filter (fun f => !(ids.contains f.id)),
      s.nextId⟩ := by
  simp only [Store.delete]
  rw [if_pos (List.all_eq_true.mpr h)]

theorem Store.filter_ids (fs : List Feature) (ids : List Nat) :
    (fs.filter (fun f => !(ids.contains f.id))).map (fun f => f.id)
      = (fs.map (fun f => f.id)).filter (fun x => !(ids.contains x)) := by
  induction fs with
  | nil => rfl
  | cons a t ih =>
      by_cases hm : a.id ∈ ids <;> simp_all [List.filter_cons]

theorem Store.getFeature_filter_not_mem (fs : List Feature) (n : Nat)
    (ids : List Nat) (i : Nat) (h : ids.contains i = false) :
    Store.getFeature ⟨fs.filter (fun f => !(ids.contains f.id)), n⟩ i
      = Store.getFeature ⟨fs, n⟩ i := by
  have hmem : i ∉ ids := by simpa using h
  simp only [Store.getFeature]
  induction fs with
  | nil => rfl
  | cons a t ih =>
      by_cases hai : a.id = i
      · have hane : a.id ∉ ids := by rw [hai]; exact hmem
        simp [List.filter_cons, hane, List.find?_cons, hai, hmem]
      · by_cases hm : a.id ∈ ids <;>
          simp_all [List.filter_cons, List.find?_cons]

theorem Store.updateGeometry_ids (s : Store) (ups : List (Nat × Geometry)) :
    (s.updateGeometry ups).ids = s.ids := by
  rcases s with ⟨fs, n⟩
  simp only [Store.updateGeometry, Store.ids, List.map_map]
  induction fs with
  | nil => rfl
  | cons a t ih =>
      simp only [List.map_cons] at *
      rw [ih]
      cases h : ups.lookup a.id <;> simp [Function.comp, h]

/-! ### Lifecycle lemmas -/

theorem lifecycleStep_mem (k : ModeKind) (s : LifecycleState)
    (e : LifecycleEvt) (hs : s ∈ allowedStates k) :
    ((lifecycleStep k s e).toOption.getD s) ∈ allowedStates k := by
  cases k <;> cases s <;> cases e <;> revert hs <;> decide

theorem runLifecycle_mem (k : ModeKind) (evts : List LifecycleEvt)
    (s : LifecycleState) (hs : s ∈ allowedStates k) :
    runLifecycle k s evts ∈ allowedStates k := by
  induction evts generalizing s with
  | nil => exact hs
  | cons e es ih => exact ih _ (lifecycleStep_mem k s e hs)

/-! ### Claim C1 -/

/-- C1, counterexample.  The claim says the second left click in circle mode
"emits onFinish"; running the test scenario of
`src/unnamed/part_002` lines 145-170 (click at (0,0), click again), the
finalizing click emits nothing at all — in particular no `finish` event —
because the `else` branch of `TerraDrawCircleMode.onClick`
(`circle.mode.ts` lines 61-66) only resets the three private fields. -/
theorem circle_second_click_emits_nothing :
    (TerraDrawCircleMode.onClick { lng := 0, lat := 0 }
      (TerraDrawCircleMode.onClick { lng := 0, lat := 0 }
        TerraDrawCircleMode.State.init (some Store.empty)).state
      (TerraDrawCircleMode.onClick { lng := 0, lat := 0 }
        TerraDrawCircleMode.State.init (some Store.empty)).store).emits
      = [] := by
  decide

/-- C1, amended.  A second (or any later) click while a draft exists
finalizes the drawing silently: the mode transitions back to Idle (all three
private fields reset), the store is not mutated (so the draft feature stays
and no further create callback fires), and nothing — in particular no
`onFinish` — is emitted. -/
theorem circle_second_click_finalizes_silently (e : MouseEvent)
    (ms : TerraDrawCircleMode.State) (store? : Option Store)
    (h : ms.clickCount ≠ 0) :
    TerraDrawCircleMode.onClick e ms store? =
      { state := TerraDrawCircleMode.State.init, store := store?,
        emits := [], err := none } := by
  unfold TerraDrawCircleMode.onClick
  rw [if_neg h]
  rfl

/-- C1, witness: in the two-click scenario from the empty store, the first
click leaves `clickCount = 1`, and the second click leaves the single
created feature in the store, emitting nothing. -/
theorem circle_second_click_finalizes_silently_witness :
    ((TerraDrawCircleMode.onClick { lng := 0, lat := 0 }
        TerraDrawCircleMode.State.init
        (some Store.empty)).state.clickCount ≠ 0) ∧
    (TerraDrawCircleMode.onClick { lng := 0, lat := 0 }
      (TerraDrawCircleMode.onClick { lng := 0, lat := 0 }
        TerraDrawCircleMode.State.init (some Store.empty)).state
      (TerraDrawCircleMode.onClick { lng := 0, lat := 0 }
        TerraDrawCircleMode.State.init (some Store.empty)).store =
      { state := TerraDrawCircleMode.State.init,
        store := (TerraDrawCircleMode.onClick { lng := 0, lat := 0 }
          TerraDrawCircleMode.State.init (some Store.empty)).store,
        emits := [], err := none }) ∧
    ((TerraDrawCircleMode.onClick { lng := 0, lat := 0 }
        TerraDrawCircleMode.State.init (some Store.empty)).store.map
      (fun s => s.features.length) = some 1) :=
  ⟨by decide,
    circle_second_click_finalizes_silently _ _ _ (by decide),
    by decide⟩

/-! ### Claim C10 -/

/-- C10.  `TerraDrawCircleMode.cleanUp` never throws: the `store.delete`
call is wrapped in try/catch, so the `UnknownId` error (or the TypeError on
an unregistered store handle) is swallowed; in every case `center`,
`currentCircleId` and `clickCount` are reset to their initial values
(returning the mode to Idle), and when no draft circle exists the store is
untouched and no change callback fires (test `src/unnamed/part_002` lines
251-254). -/
theorem circle_cleanup_never_throws (ms : TerraDrawCircleMode.State)
    (store? : Option Store) :
    (TerraDrawCircleMode.cleanUp ms store?).err = none ∧
    (TerraDrawCircleMode.cleanUp ms store?).state
      = TerraDrawCircleMode.State.init ∧
    (ms.currentCircleId = none →
      (TerraDrawCircleMode.cleanUp ms store?).store = store? ∧
      (TerraDrawCircleMode.cleanUp ms store?).emits = []) := by
  unfold TerraDrawCircleMode.cleanUp
  refine ⟨?_, ?_, ?_⟩
  · cases store? with
    | none => rfl
    | some st =>
        cases ms.currentCircleId with
        | none => rfl
        | some i => cases st.delete [i] <;> rfl
  · cases store? with
    | none => rfl
    | some st =>
        cases ms.currentCircleId with
        | none => rfl
        | some i => cases st.delete [i] <;> rfl
  · intro h
    rw [h]
    cases store? <;> exact ⟨rfl, rfl⟩

/-- C10, witness: `cleanUp` on a fresh registered mode with an empty store
throws nothing, resets the state and leaves the store untouched. -/
theorem circle_cleanup_never_throws_witness :
    (TerraDrawCircleMode.cleanUp TerraDrawCircleMode.State.init
      (some Store.empty)).err = none ∧
    (TerraDrawCircleMode.cleanUp TerraDrawCircleMode.State.init
      (some Store.empty)).state = TerraDrawCircleMode.State.init ∧
    (TerraDrawCircleMode.cleanUp TerraDrawCircleMode.State.init
      (some Store.empty)).store = some Store.empty ∧
    (TerraDrawCircleMode.cleanUp TerraDrawCircleMode.State.init
      (some Store.empty)).emits = [] := by
  have h := circle_cleanup_never_throws TerraDrawCircleMode.State.init
    (some Store.empty)
  exact ⟨h.1, h.2.1, (h.2.2 rfl).1, (h.2.2 rfl).2⟩

/-! ### Claim C7 -/

/-- C7, counterexample.  The claim says every mouse-move with an active
draft changes the feature's coordinates.  After the first click at (0,0) and
a mouse-move to (1,1), a second mouse-move to the same cursor position (1,1)
issues another `updateGeometry` call — an update notification is emitted —
but the computed circle (same center, same `haversineDistanceKilometers`
result for the same arguments) is identical, so the stored coordinates do
not change.  The scenario is evaluated with the deterministic stand-in
`mockDist`; only determinism of the distance function is used. -/
theorem circle_mousemove_same_cursor_coordinates_unchanged :
    (TerraDrawCircleMode.onMouseMove mockDist { lng := 1, lat := 1 }
      (TerraDrawCircleMode.onMouseMove mockDist { lng := 1, lat := 1 }
        (TerraDrawCircleMode.onClick { lng := 0, lat := 0 }
          TerraDrawCircleMode.State.init (some Store.empty)).state
        (TerraDrawCircleMode.onClick { lng := 0, lat := 0 }
          TerraDrawCircleMode.State.init (some Store.empty)).store).state
      (TerraDrawCircleMode.onMouseMove mockDist { lng := 1, lat := 1 }
        (TerraDrawCircleMode.onClick { lng := 0, lat := 0 }
          TerraDrawCircleMode.State.init (some Store.empty)).state
        (TerraDrawCircleMode.onClick { lng := 0, lat := 0 }
          TerraDrawCircleMode.State.init (some Store.empty)).store).store).emits
      = [Emit.change [0] .update] ∧
    ((TerraDrawCircleMode.onMouseMove mockDist { lng := 1, lat := 1 }
      (TerraDrawCircleMode.onMouseMove mockDist { lng := 1, lat := 1 }
        (TerraDrawCircleMode.onClick { lng := 0, lat := 0 }
          TerraDrawCircleMode.State.init (some Store.empty)).state
        (TerraDrawCircleMode.onClick { lng := 0, lat := 0 }
          TerraDrawCircleMode.State.init (some Store.empty)).store).state
      (TerraDrawCircleMode.onMouseMove mockDist { lng := 1, lat := 1 }
        (TerraDrawCircleMode.onClick { lng := 0, lat := 0 }
          TerraDrawCircleMode.State.init (some Store.empty)).state
        (TerraDrawCircleMode.onClick { lng := 0, lat := 0 }
          TerraDrawCircleMode.State.init (some Store.empty)).store).store).store.bind
        (fun s => s.getFeature 0)).map (fun f => f.geometry) =
    ((TerraDrawCircleMode.onMouseMove mockDist { lng := 1, lat := 1 }
        (TerraDrawCircleMode.onClick { lng := 0, lat := 0 }
          TerraDrawCircleMode.State.init (some Store.empty)).state
        (TerraDrawCircleMode.onClick { lng := 0, lat := 0 }
          TerraDrawCircleMode.State.init (some Store.empty)).store).store.bind
        (fun s => s.getFeature 0)).map (fun f => f.geometry) := by
  refine ⟨?_, ?_⟩ <;>
    simp [TerraDrawCircleMode.onClick, TerraDrawCircleMode.onMouseMove,
      TerraDrawCircleMode.State.init, Store.empty, Store.create,
      Store.updateGeometry, Store.getFeature, List.lookup, List.find?,
      List.range, List.range.loop, List.zip_cons_cons, List.zip_nil_right,
      List.head?]

/-- C7, amended.  While circle mode has an active draft (`clickCount = 1`,
center and draft id recorded), every mouse-move issues exactly one
`store.updateGeometry` for the draft circle's id, whose new geometry is the
circle around the recorded center with radius
`haversineDistanceKilometers(center, cursor)` (one update notification for
exactly that id); the store's id list — in particular the feature's id — is
preserved.  With no active draft (`clickCount ≠ 1`) a mouse-move mutates
nothing and emits nothing.  The coordinates change whenever the newly
computed circle differs from the stored geometry (as in the test's move
after creation), but not on a repeated identical cursor position. -/
theorem circle_mousemove_updates_amended (dist : Pos → Pos → ℚ)
    (e : MouseEvent) (ms : TerraDrawCircleMode.State) (st : Store)
    (c : Pos) (i : Nat)
    (h1 : ms.clickCount = 1) (hc : ms.center = some c)
    (hi : ms.currentCircleId = some i) :
    TerraDrawCircleMode.onMouseMove dist e ms (some st) =
      { state := ms,
        store := some (st.updateGeometry
          [(i, Geometry.circleApprox c (dist c (e.lng, e.lat)))]),
        emits := [Emit.change [i] .update], err := none } ∧
    (∀ ups : List (Nat × Geometry), (st.updateGeometry ups).ids = st.ids) ∧
    (∀ (ms' : TerraDrawCircleMode.State) (store? : Option Store),
      ms'.clickCount ≠ 1 →
      TerraDrawCircleMode.onMouseMove dist e ms' store? =
        { state := ms', store := store?, emits := [], err := none }) := by
  refine ⟨?_, fun ups => Store.updateGeometry_ids st ups, ?_⟩
  · unfold TerraDrawCircleMode.onMouseMove
    rw [if_pos h1, hc, hi]
  · intro ms' store? h
    unfold TerraDrawCircleMode.onMouseMove
    rw [if_neg h]

/-- C7, witness: in the post-first-click state (center (0,0), draft id 0), a
mouse-move to (1,1) issues the single update with the recomputed circle, and
a mouse-move in a draft-free state mutates nothing. -/
theorem circle_mousemove_updates_amended_witness :
    TerraDrawCircleMode.onMouseMove mockDist { lng := 1, lat := 1 }
      { center := some (0, 0), clickCount := 1, currentCircleId := some 0 }
      (some ⟨[⟨0, Geometry.circleApprox (0, 0) (1 / 100000),
        { mode := "circle" }⟩], 1⟩) =
      { state :=
          { center := some (0, 0), clickCount := 1,
            currentCircleId := some 0 },
        store := some ((⟨[⟨0, Geometry.circleApprox (0, 0) (1 / 100000),
            { mode := "circle" }⟩], 1⟩ : Store).updateGeometry
          [(0, Geometry.circleApprox (0, 0) (mockDist (0, 0) (1, 1)))]),
        emits := [Emit.change [0] .update], err := none } ∧
    TerraDrawCircleMode.onMouseMove mockDist { lng := 1, lat := 1 }
      TerraDrawCircleMode.State.init (some Store.empty) =
      { state := TerraDrawCircleMode.State.init, store := some Store.empty,
        emits := [], err := none } :=
  ⟨(circle_mousemove_updates_amended mockDist { lng := 1, lat := 1 }
      { center := some (0, 0), clickCount := 1, currentCircleId := some 0 }
      ⟨[⟨0, Geometry.circleApprox (0, 0) (1 / 100000),
        { mode := "circle" }⟩], 1⟩ (0, 0) 0 rfl rfl rfl).1,
    (circle_mousemove_updates_amended mockDist { lng := 1, lat := 1 }
      { center := some (0, 0), clickCount := 1, currentCircleId := some 0 }
      ⟨[⟨0, Geometry.circleApprox (0, 0) (1 / 100000),
        { mode := "circle" }⟩], 1⟩ (0, 0) 0 rfl rfl rfl).2.2
      TerraDrawCircleMode.State.init (some Store.empty) (by decide)⟩

/-! ### Claim C5 -/

/-- C5, counterexample.  The claim says every event handler called before
`register()` fails with `NotRegistered`.  Circle mode's `onMouseMove` on a
freshly constructed (unregistered) mode does not throw: its
`clickCount === 1` guard (`circle.mode.ts` line 69) is false on the initial
state, so the handler returns without ever touching `this.store` (the
circle-mode tests likewise assert that `onDrag`/`onDragStart`/`onDragEnd`
do not throw on an unregistered mode, `src/unnamed/part_002` lines
316-344). -/
theorem circle_mousemove_unregistered_no_throw :
    (TerraDrawCircleMode.onMouseMove mockDist { lng := 0, lat := 0 }
      TerraDrawCircleMode.State.init none).err = none := by
  decide

/-- C5, amended.  `start()` and `stop()` before `register()` fail with
`NotRegistered`, as does any event handler that reaches the store on the
unregistered path: point mode's `onClick` (explicit
`Error("Mode must be registered first")`, `point.mode.ts` lines 35-37) and
circle mode's `onClick` (TypeError from the `undefined` store handle,
`circle.mode.ts` line 51); in every case the store is never touched.
Handlers whose guards skip the store access — such as circle mode's
`onMouseMove` with no active draft — return without error. -/
theorem handlers_before_register_amended :
    (∀ e : MouseEvent,
      TerraDrawPointMode.onClick e none = (none, [], some .notRegistered)) ∧
    (∀ e : MouseEvent,
      (TerraDrawCircleMode.onClick e TerraDrawCircleMode.State.init
          none).err = some .notRegistered ∧
      (TerraDrawCircleMode.onClick e TerraDrawCircleMode.State.init
          none).store = none ∧
      (TerraDrawCircleMode.onClick e TerraDrawCircleMode.State.init
          none).emits = []) ∧
    (∀ k : ModeKind,
      lifecycleStep k .unregistered .start = .error .notRegistered ∧
      lifecycleStep k .unregistered .stop = .error .notRegistered) ∧
    (∀ (dist : Pos → Pos → ℚ) (e : MouseEvent),
      TerraDrawCircleMode.onMouseMove dist e TerraDrawCircleMode.State.init
          none =
        { state := TerraDrawCircleMode.State.init, store := none,
          emits := [], err := none }) := by
  refine ⟨fun e => rfl, fun e => ⟨rfl, rfl, rfl⟩, fun k => ⟨rfl, rfl⟩,
    fun dist e => rfl⟩

/-! ### Claim C2 -/

/-- C2, counterexample.  The claim says `state` is always one of exactly
{unregistered, registered, started, stopped}.  After `register()` and a
successful `start()`, the select mode's publicly readable `state` is
`"selecting"` (test "can start correctly", `src/unnamed/part_000` lines
178-185), which is not in the claimed set. -/
theorem select_start_state_not_in_claimed_set :
    (runLifecycle .select .unregistered [.register, .start]).str
      = "selecting" ∧
    (["unregistered", "registered", "started",
        "stopped"].contains
      (runLifecycle .select .unregistered [.register, .start]).str)
      = false := by
  constructor
  · rfl
  · rfl

/-- C2, amended.  Every reachable mode state is one of {unregistered,
registered, started, selecting, stopped}: unregistered before `register`,
registered after `register`, `startTarget` after a successful `start` —
`"started"` for the point and circle modes but `"selecting"` for the select
mode — and stopped after `stop`; so the draw modes range over exactly the
claimed four states while the select mode ranges over {unregistered,
registered, selecting, stopped}. -/
theorem mode_lifecycle_states_amended :
    (∀ (k : ModeKind) (evts : List LifecycleEvt),
      runLifecycle k .unregistered evts ∈ allowedStates k) ∧
    (∀ (k : ModeKind) (s s' : LifecycleState),
      lifecycleStep k s .register = .ok s' → s' = .registered) ∧
    (∀ (k : ModeKind) (s s' : LifecycleState),
      lifecycleStep k s .start = .ok s' → s' = startTarget k) ∧
    (∀ (k : ModeKind) (s s' : LifecycleState),
      lifecycleStep k s .stop = .ok s' → s' = .stopped) ∧
    startTarget .point = .started ∧ startTarget .circle = .started ∧
    startTarget .select = .selecting ∧
    allowedStates .circle
      = [.unregistered, .registered, .started, .stopped] ∧
    allowedStates .select
      = [.unregistered, .registered, .selecting, .stopped] := by
  refine ⟨fun k evts => runLifecycle_mem k evts _ (by cases k <;> decide),
    ?_, ?_, ?_, rfl, rfl, rfl, rfl, rfl⟩
  · intro k s s' h
    by_cases hs : s = .unregistered <;> simp [lifecycleStep, hs] at h <;>
      simp only [h.symm]
  · intro k s s' h
    by_cases hs : s = .unregistered <;> simp [lifecycleStep, hs] at h <;>
      simp only [h.symm]
  · intro k s s' h
    by_cases hs : s = .unregistered <;> simp [lifecycleStep, hs] at h <;>
      simp only [h.symm]

/-- C2, witness: concrete runs — circle mode reaches `"started"` and select
mode reaches `"selecting"`, each within its allowed state set; and the
concrete step facts hold at `registered`. -/
theorem mode_lifecycle_states_amended_witness :
    runLifecycle .circle .unregistered [.register, .start]
      ∈ allowedStates .circle ∧
    runLifecycle .select .unregistered [.register, .start]
      ∈ allowedStates .select ∧
    LifecycleState.registered = LifecycleState.registered ∧
    startTarget .select = .selecting :=
  ⟨mode_lifecycle_states_amended.1 .circle [.register, .start],
    mode_lifecycle_states_amended.1 .select [.register, .start],
    mode_lifecycle_states_amended.2.1 .circle .unregistered .registered rfl,
    mode_lifecycle_states_amended.2.2.2.2.2.2.1⟩

/-! ### Claim C8 -/

/-- C8.  Select mode's `styleFeature` resolves a style key configured as a
literal value and the same key configured as a constant function returning
that value to the same resolved style, for every feature; and resolution
merges with the default styling: keys left unconfigured resolve to the
default value (shown for a configuration with only `selectedPolygonColor`
set). -/
theorem styleFeature_literal_function_agree (c oc : String) (op w : ℚ)
    (f : Feature) :
    TerraDrawSelectMode.styleFeature
      { selectedPolygonColor := some (.lit c),
        selectedPolygonFillOpacity := some (.lit op),
        selectedPolygonOutlineColor := some (.lit oc),
        selectedPolygonOutlineWidth := some (.lit w) } f =
    TerraDrawSelectMode.styleFeature
      { selectedPolygonColor := some (.fn (fun _ => c)),
        selectedPolygonFillOpacity := some (.fn (fun _ => op)),
        selectedPolygonOutlineColor := some (.fn (fun _ => oc)),
        selectedPolygonOutlineWidth := some (.fn (fun _ => w)) } f ∧
    (TerraDrawSelectMode.styleFeature
        { selectedPolygonColor := some (.lit c) } f).polygonFillOpacity =
      TerraDrawSelectMode.defaultStyling.polygonFillOpacity ∧
    (TerraDrawSelectMode.styleFeature
        { selectedPolygonColor := some (.lit c) } f).polygonOutlineColor =
      TerraDrawSelectMode.defaultStyling.polygonOutlineColor ∧
    (TerraDrawSelectMode.styleFeature
        { selectedPolygonColor := some (.lit c) } f).polygonOutlineWidth =
      TerraDrawSelectMode.defaultStyling.polygonOutlineWidth := by
  unfold TerraDrawSelectMode.styleFeature
  by_cases h : f.props.mode = "polygon" ∧ f.props.selected = true <;>
    simp [h, TerraDrawSelectMode.StyleProp.resolve]

/-! ### Claim C6 -/

/-- Whether an emission is an `onDeselect` callback invocation. -/
def Emit.isDeselect : Emit → Bool
  | .deselect _ => true
  | _ => false

theorem deleteOverlays_no_deselect (st : Store) (ids : List Nat) :
    ((TerraDrawSelectMode.deleteOverlays st ids).2.countP Emit.isDeselect)
      = 0 := by
  unfold TerraDrawSelectMode.deleteOverlays
  by_cases h : ids.isEmpty
  · simp [h]
  · rw [if_neg h]
    cases st.delete ids <;> simp [List.countP_cons, Emit.isDeselect]

/-- C6.  With a feature selected, a left click that hits no selection point,
no midpoint and no selectable feature deselects when
`allowManualDeselection` is true — `onDeselect` fires exactly once and the
selection is cleared — and is a complete no-op when `allowManualDeselection`
is false: state, store and emissions are unchanged, so `onDeselect` is not
called and the selection is retained.  The constructor default for
`allowManualDeselection` is true. -/
theorem select_manual_deselection_behavior
    (opts : TerraDrawSelectMode.Options) (project : Pos → Pos)
    (ss : TerraDrawSelectMode.State) (st : Store) (e : MouseEvent)
    (sid : Nat)
    (hbtn : e.button = .left)
    (hsel : ss.selected = some sid)
    (h1 : TerraDrawSelectMode.findOverlayHit project opts.pointerDistance st
      ss.selectionPoints (TerraDrawSelectMode.cursorPx project e) = none)
    (h2 : TerraDrawSelectMode.findOverlayHit project opts.pointerDistance st
      ss.midPoints (TerraDrawSelectMode.cursorPx project e) = none)
    (hmiss : TerraDrawSelectMode.hitTestFeatures opts project st
      (e.lng, e.lat) = none) :
    (opts.allowManualDeselection = true →
      TerraDrawSelectMode.onClick opts project ss st e
        = TerraDrawSelectMode.deselectCurrent ss st ∧
      ((TerraDrawSelectMode.onClick opts project ss st e).2.2.countP
        Emit.isDeselect) = 1 ∧
      (TerraDrawSelectMode.onClick opts project ss st e).1.selected
        = none) ∧
    (opts.allowManualDeselection = false →
      TerraDrawSelectMode.onClick opts project ss st e = (ss, st, [])) ∧
    TerraDrawSelectMode.Options.allowManualDeselection {} = true := by
  have hrun : TerraDrawSelectMode.onClick opts project ss st e
      = (if opts.allowManualDeselection then
          TerraDrawSelectMode.deselectCurrent ss st
        else (ss, st, [])) := by
    unfold TerraDrawSelectMode.onClick
    rw [hbtn]
    unfold TerraDrawSelectMode.onLeftClick
    simp only [h1, h2, hmiss]
  refine ⟨?_, ?_, rfl⟩
  · intro ha
    rw [hrun, if_pos ha]
    refine ⟨rfl, ?_, ?_⟩
    · unfold TerraDrawSelectMode.deselectCurrent
      rw [hsel]
      simp only [List.countP_append, List.countP_cons, List.countP_nil,
        Emit.isDeselect, deleteOverlays_no_deselect]
      rfl
    · unfold TerraDrawSelectMode.deselectCurrent
      rw [hsel]
      rfl
  · intro ha
    rw [hrun, ha]
    rfl

/-- The unit-square polygon ring used by the select-mode tests. -/
def sqRing : List Pos := [(0, 0), (0, 1), (1, 1), (1, 0), (0, 0)]

/-- Concrete select-mode options for the manual-deselection witness:
polygons selectable, everything else default (so `allowManualDeselection`
is the default true). -/
def mdOpts : TerraDrawSelectMode.Options :=
  { flags := [("polygon", { feature := some {} })] }

/-- Concrete store for the manual-deselection witness: one selected square
polygon with id 0. -/
def mdStore : Store :=
  ⟨[⟨0, .polygon sqRing, { mode := "polygon", selected := true }⟩], 1⟩

/-- C6, witness: clicking blank map space at (59,59) with the square
selected (and the default `allowManualDeselection`) deselects: exactly one
`onDeselect` and the selection cleared. -/
theorem select_manual_deselection_behavior_witness :
    ((TerraDrawSelectMode.onClick mdOpts proj40 { selected := some 0 }
      mdStore { lng := 59, lat := 59 }).2.2.countP Emit.isDeselect) = 1 ∧
    (TerraDrawSelectMode.onClick mdOpts proj40 { selected := some 0 }
      mdStore { lng := 59, lat := 59 }).1.selected = none := by
  have hmiss : TerraDrawSelectMode.hitTestFeatures mdOpts proj40 mdStore
      (59, 59) = none := by
    norm_num [TerraDrawSelectMode.hitTestFeatures, mdOpts, mdStore, sqRing,
      TerraDrawSelectMode.Options.selectable,
      TerraDrawSelectMode.Options.featureFlags, List.lookup,
      TerraDrawSelectMode.featureHit, TerraDrawSelectMode.geomKindIs,
      TerraDrawSelectMode.pointInRing, TerraDrawSelectMode.segmentsOf,
      TerraDrawSelectMode.sqSegDist, List.filter, List.find?]
    split
    · rename_i hb
      norm_num at hb
    · rfl
  have h := select_manual_deselection_behavior mdOpts proj40
    { selected := some 0 } mdStore { lng := 59, lat := 59 } 0
    rfl rfl rfl rfl hmiss
  exact ⟨(h.1 rfl).2.1, (h.1 rfl).2.2⟩

/-! ### Claim C4 -/

/-- C4.  A right-click vertex deletion (selection-point hit, `deletable`
set) whose resulting ring would violate the §3 ring invariants — fewer than
4 coordinates after closure, or self-intersecting, i.e. `ringValid` is
false — aborts silently and atomically: the returned store is the input
store (no `store.delete`, no `store.updateGeometry`), the mode state is
unchanged, and nothing is emitted. -/
theorem select_invalid_vertex_delete_aborts
    (opts : TerraDrawSelectMode.Options) (project : Pos → Pos)
    (ss : TerraDrawSelectMode.State) (st : Store) (e : MouseEvent)
    (pid spid idx : Nat) (f : Feature)
    (cf : TerraDrawSelectMode.CoordinateFlags) (ring : List Pos)
    (hbtn : e.button = .right)
    (hsel : ss.selected = some pid)
    (hhit : TerraDrawSelectMode.findOverlayHit project opts.pointerDistance
      st ss.selectionPoints (TerraDrawSelectMode.cursorPx project e)
      = some (spid, idx))
    (hfeat : st.getFeature pid = some f)
    (hcf : opts.coordFlags f.props.mode = some cf)
    (hdel : cf.deletable = true)
    (hgeom : f.geometry = Geometry.polygon ring)
    (hinvalid : TerraDrawSelectMode.ringValid
      (TerraDrawSelectMode.deleteVertexClosed ring idx) = false) :
    TerraDrawSelectMode.onClick opts project ss st e = (ss, st, []) := by
  unfold TerraDrawSelectMode.onClick
  rw [hbtn]
  unfold TerraDrawSelectMode.onRightClick
  simp only [hsel, hhit, hfeat, hcf, hdel, hgeom, hinvalid, Bool.not_true,
    Bool.not_false, Bool.false_eq_true, if_false, if_true]

theorem findOverlayHit_nil (project : Pos → Pos) (pd : ℚ) (st : Store)
    (cursor : Pos) :
    TerraDrawSelectMode.findOverlayHit project pd st [] cursor = none := rfl

theorem findOverlayHit_cons_hit (project : Pos → Pos) (pd : ℚ) (st : Store)
    (cursor : Pos) (i : Nat) (rest : List Nat) (p : Pos) (pr : Props)
    (hget : st.getFeature i = some ⟨i, Geometry.point p, pr⟩)
    (hle : TerraDrawSelectMode.sqPx cursor (project p) ≤ pd ^ 2) :
    TerraDrawSelectMode.findOverlayHit project pd st (i :: rest) cursor
      = some (i, pr.index.getD 0) := by
  unfold TerraDrawSelectMode.findOverlayHit
  rw [List.findSome?_cons]
  simp only [hget]
  rw [if_pos hle]

theorem findOverlayHit_cons_miss (project : Pos → Pos) (pd : ℚ) (st : Store)
    (cursor : Pos) (i : Nat) (rest : List Nat) (p : Pos) (pr : Props)
    (hget : st.getFeature i = some ⟨i, Geometry.point p, pr⟩)
    (hgt : ¬ TerraDrawSelectMode.sqPx cursor (project p) ≤ pd ^ 2) :
    TerraDrawSelectMode.findOverlayHit project pd st (i :: rest) cursor
      = TerraDrawSelectMode.findOverlayHit project pd st rest cursor := by
  unfold TerraDrawSelectMode.findOverlayHit
  rw [List.findSome?_cons]
  simp only [hget]
  rw [if_neg hgt]

/-- The triangle ring of the "invalid delete suppressed" scenario. -/
def triRing : List Pos := [(0, 0), (0, 1), (1, 1), (0, 0)]

/-- Concrete options for the C4 witness: polygons selectable with deletable
coordinates. -/
def c4Opts : TerraDrawSelectMode.Options :=
  { flags := [("polygon",
      { feature := some { coordinates := some { deletable := true } } })] }

/-- Concrete store for the C4 witness: the selected triangle (id 0) and its
three selection-point overlays (ids 1-3). -/
def c4Store : Store :=
  ⟨[⟨0, .polygon triRing, { mode := "polygon", selected := true }⟩,
    ⟨1, .point (0, 0),
      { mode := "selection-point", parentId := some 0, index := some 0 }⟩,
    ⟨2, .point (0, 1),
      { mode := "selection-point", parentId := some 0, index := some 1 }⟩,
    ⟨3, .point (1, 1),
      { mode := "selection-point", parentId := some 0, index := some 2 }⟩],
   4⟩

/-- C4, witness: right-clicking the (0,0) vertex of the selected triangle
(whose deletion would leave a 3-coordinate ring) changes nothing: same
state, same store, nothing emitted. -/
theorem select_invalid_vertex_delete_aborts_witness :
    TerraDrawSelectMode.onClick c4Opts proj40
      { selected := some 0, selectionPoints := [1, 2, 3] } c4Store
      { lng := 0, lat := 0, button := .right } =
    ({ selected := some 0, selectionPoints := [1, 2, 3] }, c4Store, []) := by
  exact select_invalid_vertex_delete_aborts c4Opts proj40
    { selected := some 0, selectionPoints := [1, 2, 3] } c4Store
    { lng := 0, lat := 0, button := .right } 0 1 0
    ⟨0, .polygon triRing, { mode := "polygon", selected := true }⟩
    { deletable := true } triRing
    rfl rfl
    (by
      rw [findOverlayHit_cons_hit proj40 c4Opts.pointerDistance c4Store
        (TerraDrawSelectMode.cursorPx proj40
          { lng := 0, lat := 0, button := .right }) 1 [2, 3] (0, 0)
        { mode := "selection-point", parentId := some 0, index := some 0 }
        rfl
        (by norm_num [TerraDrawSelectMode.sqPx,
          TerraDrawSelectMode.cursorPx, proj40, c4Opts])]
      rfl)
    (by norm_num [c4Store, Store.getFeature, List.find?, triRing])
    rfl rfl rfl
    (by norm_num [TerraDrawSelectMode.ringValid,
      TerraDrawSelectMode.deleteVertexClosed, triRing, List.dropLast,
      List.eraseIdx])

/-! ### Claim C3 -/

theorem deleteOverlays_nil (st : Store) :
    TerraDrawSelectMode.deleteOverlays st [] = (st, []) := rfl

theorem deleteOverlays_ok (st : Store) (ids : List Nat) (hne : ids ≠ [])
    (hall : ∀ i ∈ ids, st.has i = true) :
    TerraDrawSelectMode.deleteOverlays st ids =
      (⟨st.features.filter (fun f => !(ids.contains f.id)), st.nextId⟩,
        [Emit.change ids .delete]) := by
  unfold TerraDrawSelectMode.deleteOverlays
  rw [if_neg (by simpa using hne), Store.delete_ok st ids hall]

/-- Evaluation of `deselectCurrent` in a state with a selected feature,
selection points present in the store and no midpoints. -/
theorem deselectCurrent_eval (ss : TerraDrawSelectMode.State) (st : Store)
    (oldId : Nat)
    (hsel : ss.selected = some oldId) (hmid : ss.midPoints = [])
    (hpts : ss.selectionPoints ≠ [])
    (hall : ∀ i ∈ ss.selectionPoints, st.has i = true) :
    TerraDrawSelectMode.deselectCurrent ss st =
      (TerraDrawSelectMode.State.init,
        ⟨(st.updateSelected oldId false).features.filter
          (fun f => !(ss.selectionPoints.contains f.id)), st.nextId⟩,
        [Emit.deselect oldId, Emit.change [oldId] .update,
          Emit.change ss.selectionPoints .delete]) := by
  have hall1 : ∀ i ∈ ss.selectionPoints,
      (st.updateSelected oldId false).has i = true := fun i hi => by
    rw [Store.has_updateSelected]
    exact hall i hi
  unfold TerraDrawSelectMode.deselectCurrent
  simp only [hsel, hmid]
  rw [deleteOverlays_ok _ _ hpts hall1, deleteOverlays_nil]
  rfl

/-- Emission log of `selectFeature` for a polygon feature whose mode has a
coordinates block without the midpoints flag. -/
theorem selectFeature_emits_polygon (opts : TerraDrawSelectMode.Options)
    (st : Store) (nid : Nat) (f : Feature)
    (cf : TerraDrawSelectMode.CoordinateFlags) (ring2 : List Pos)
    (hfeat : st.getFeature nid = some f)
    (hcf : opts.coordFlags f.props.mode = some cf)
    (hmids : cf.midpoints = false)
    (hgeom : f.geometry = Geometry.polygon ring2)
    (hrng : ring2.dropLast ≠ []) :
    (TerraDrawSelectMode.selectFeature opts st nid).2.2 =
      [Emit.select nid, Emit.change [nid] .update,
        Emit.change ((List.range ring2.dropLast.length).map
          (fun k => st.nextId + k)) .create] := by
  unfold TerraDrawSelectMode.selectFeature
  simp only [hfeat, hcf]
  unfold TerraDrawSelectMode.createOverlays
  simp only [hmids, hgeom, TerraDrawSelectMode.selectionPointPositions,
    Bool.false_eq_true, if_false]
  rw [if_neg (by simpa using hrng)]
  simp only [Store.create_fst, List.length_map, List.length_zip,
    List.length_range, Nat.min_self, Store.nextId_updateSelected]
  rfl

/-- C3.  When a left click in a Selected state (with selection-point
overlays and no midpoints) hits a selectable polygon different from the
currently selected feature, the emission log is exactly: `onDeselect(old)`,
old feature's `selected` set to false (update), old selection points
deleted, `onSelect(new)`, new feature's `selected` set to true (update),
new selection points created — so `onDeselect(oldId)` precedes
`onSelect(newId)` and the four store change notifications are ordered as
the claim states. -/
theorem select_switch_callback_order (opts : TerraDrawSelectMode.Options)
    (project : Pos → Pos) (ss : TerraDrawSelectMode.State) (st : Store)
    (e : MouseEvent) (oldId newId : Nat) (f : Feature)
    (cf : TerraDrawSelectMode.CoordinateFlags) (ring2 : List Pos)
    (hbtn : e.button = .left)
    (hsel : ss.selected = some oldId)
    (hmid : ss.midPoints = [])
    (h1 : TerraDrawSelectMode.findOverlayHit project opts.pointerDistance
      st ss.selectionPoints (TerraDrawSelectMode.cursorPx project e) = none)
    (hhit : TerraDrawSelectMode.hitTestFeatures opts project st
      (e.lng, e.lat) = some newId)
    (hne : newId ≠ oldId)
    (hpts : ss.selectionPoints ≠ [])
    (hall : ∀ i ∈ ss.selectionPoints, st.has i = true)
    (hnotin : ss.selectionPoints.contains newId = false)
    (hfeat : st.getFeature newId = some f)
    (hcf : opts.coordFlags f.props.mode = some cf)
    (hmids : cf.midpoints = false)
    (hgeom : f.geometry = Geometry.polygon ring2)
    (hrng : ring2.dropLast ≠ []) :
    (TerraDrawSelectMode.onClick opts project ss st e).2.2 =
      [Emit.deselect oldId, Emit.change [oldId] .update,
        Emit.change ss.selectionPoints .delete,
        Emit.select newId, Emit.change [newId] .update,
        Emit.change ((List.range ring2.dropLast.length).map
          (fun k => st.nextId + k)) .create] := by
  have hcond : ¬ (ss.selected = some newId) := by
    rw [hsel]
    intro hcc
    exact hne (Option.some.injEq _ _ ▸ hcc).symm
  unfold TerraDrawSelectMode.onClick
  rw [hbtn]
  unfold TerraDrawSelectMode.onLeftClick
  simp only [h1, hmid, findOverlayHit_nil, hhit]
  rw [if_neg hcond]
  rw [deselectCurrent_eval ss st oldId hsel hmid hpts hall]
  have hfeat2 :
      (⟨(st.updateSelected oldId false).features.filter
        (fun f => !(ss.selectionPoints.contains f.id)),
        st.nextId⟩ : Store).getFeature newId = some f := by
    rw [Store.getFeature_filter_not_mem _ _ _ _ hnotin]
    have : (⟨(st.updateSelected oldId false).features, st.nextId⟩ : Store)
        = st.updateSelected oldId false := rfl
    rw [this, Store.getFeature_updateSelected_ne st oldId false newId hne]
    exact hfeat
  rw [selectFeature_emits_polygon opts _ newId f cf ring2 hfeat2 hcf hmids
    hgeom hrng]
  rfl

/-- The 2×2 square at the origin used by the switch-selection witness. -/
def sq2Ring : List Pos := [(0, 0), (0, 2), (2, 2), (2, 0), (0, 0)]

/-- The 2×2 square at (4,4) used by the switch-selection witness. -/
def farRing : List Pos := [(4, 4), (4, 6), (6, 6), (6, 4), (4, 4)]

/-- Options for the switch-selection witness: polygons selectable with a
coordinates block (no midpoints). -/
def c3Opts : TerraDrawSelectMode.Options :=
  { flags := [("polygon", { feature := some { coordinates := some {} } })] }

/-- Store for the switch-selection witness: the selected square (id 0), a
second square (id 1), and the four selection points of the first (ids 2-5). -/
def c3Store : Store :=
  ⟨[⟨0, .polygon sq2Ring, { mode := "polygon", selected := true }⟩,
    ⟨1, .polygon farRing, { mode := "polygon" }⟩,
    ⟨2, .point (0, 0),
      { mode := "selection-point", parentId := some 0, index := some 0 }⟩,
    ⟨3, .point (0, 2),
      { mode := "selection-point", parentId := some 0, index := some 1 }⟩,
    ⟨4, .point (2, 2),
      { mode := "selection-point", parentId := some 0, index := some 2 }⟩,
    ⟨5, .point (2, 0),
      { mode := "selection-point", parentId := some 0, index := some 3 }⟩],
   6⟩

/-- C3, witness: with square 0 selected (selection points 2-5), clicking
inside square 1 at (5,5) emits exactly the claimed sequence. -/
theorem select_switch_callback_order_witness :
    (TerraDrawSelectMode.onClick c3Opts proj40
      { selected := some 0, selectionPoints := [2, 3, 4, 5] } c3Store
      { lng := 5, lat := 5 }).2.2 =
      [Emit.deselect 0, Emit.change [0] .update,
        Emit.change [2, 3, 4, 5] .delete,
        Emit.select 1, Emit.change [1] .update,
        Emit.change [6, 7, 8, 9] .create] := by
  have h1 : TerraDrawSelectMode.findOverlayHit proj40 c3Opts.pointerDistance
      c3Store [2, 3, 4, 5]
      (TerraDrawSelectMode.cursorPx proj40 { lng := 5, lat := 5 }) = none := by
    rw [findOverlayHit_cons_miss proj40 c3Opts.pointerDistance c3Store _ 2
        [3, 4, 5] (0, 0)
        { mode := "selection-point", parentId := some 0, index := some 0 }
        rfl
        (by norm_num [TerraDrawSelectMode.sqPx,
          TerraDrawSelectMode.cursorPx, proj40, c3Opts]),
      findOverlayHit_cons_miss proj40 c3Opts.pointerDistance c3Store _ 3
        [4, 5] (0, 2)
        { mode := "selection-point", parentId := some 0, index := some 1 }
        rfl
        (by norm_num [TerraDrawSelectMode.sqPx,
          TerraDrawSelectMode.cursorPx, proj40, c3Opts]),
      findOverlayHit_cons_miss proj40 c3Opts.pointerDistance c3Store _ 4
        [5] (2, 2)
        { mode := "selection-point", parentId := some 0, index := some 2 }
        rfl
        (by norm_num [TerraDrawSelectMode.sqPx,
          TerraDrawSelectMode.cursorPx, proj40, c3Opts]),
      findOverlayHit_cons_miss proj40 c3Opts.pointerDistance c3Store _ 5
        [] (2, 0)
        { mode := "selection-point", parentId := some 0, index := some 3 }
        rfl
        (by norm_num [TerraDrawSelectMode.sqPx,
          TerraDrawSelectMode.cursorPx, proj40, c3Opts]),
      findOverlayHit_nil]
  have hcands : c3Store.features.filter (fun f => c3Opts.selectable f) =
      [⟨0, .polygon sq2Ring, { mode := "polygon", selected := true }⟩,
        ⟨1, .polygon farRing, { mode := "polygon" }⟩] := by
    simp [c3Store, c3Opts, TerraDrawSelectMode.Options.selectable,
      TerraDrawSelectMode.Options.featureFlags, List.lookup,
      List.filter_cons]
  have hhit : TerraDrawSelectMode.hitTestFeatures c3Opts proj40 c3Store
      (5, 5) = some 1 := by
    unfold TerraDrawSelectMode.hitTestFeatures
    rw [hcands]
    dsimp only
    rw [List.find?_cons_of_neg _ (by
        simp [TerraDrawSelectMode.geomKindIs]),
      List.find?_cons_of_neg _ (by
        simp [TerraDrawSelectMode.geomKindIs]),
      List.find?_cons_of_neg _ (by
        simp [TerraDrawSelectMode.geomKindIs]),
      List.find?_cons_of_neg _ (by
        simp [TerraDrawSelectMode.geomKindIs]),
      List.find?_cons_of_neg _ (by
        norm_num [TerraDrawSelectMode.geomKindIs,
          TerraDrawSelectMode.featureHit, TerraDrawSelectMode.pointInRing,
          TerraDrawSelectMode.segmentsOf, TerraDrawSelectMode.sqSegDist,
          sq2Ring]),
      List.find?_cons_of_pos _ (by
        norm_num [TerraDrawSelectMode.geomKindIs,
          TerraDrawSelectMode.featureHit, TerraDrawSelectMode.pointInRing,
          TerraDrawSelectMode.segmentsOf, TerraDrawSelectMode.sqSegDist,
          farRing])]
    rfl
  rw [select_switch_callback_order c3Opts proj40
    { selected := some 0, selectionPoints := [2, 3, 4, 5] } c3Store
    { lng := 5, lat := 5 } 0 1
    ⟨1, .polygon farRing, { mode := "polygon" }⟩ {} farRing
    rfl rfl rfl h1 hhit (by decide) (by decide) (by decide) (by decide)
    rfl rfl rfl rfl (by decide)]
  rfl

/-! ### Claim C9 -/

theorem filter_not_contains_self (l : List Nat) :
    l.filter (fun x => !(l.contains x)) = [] := by
  rw [List.filter_eq_nil_iff]
  intro a ha
  simp [ha]

theorem filter_not_contains_of_disjoint (l ids : List Nat)
    (h : ∀ x ∈ l, x ∉ ids) :
    l.filter (fun x => !(ids.contains x)) = l := by
  rw [List.filter_eq_self]
  intro a ha
  simp [h a ha]

/-- Full evaluation of `selectFeature` for a polygon whose mode has a
coordinates block with the midpoints flag: the new state records the
freshly created selection-point and midpoint ids, the emission log is
`onSelect`, the property update, one create batch per overlay kind, and the
store gains exactly those ids. -/
theorem selectFeature_eval_mid (opts : TerraDrawSelectMode.Options)
    (st : Store) (pid : Nat) (f : Feature)
    (cf : TerraDrawSelectMode.CoordinateFlags) (ring : List Pos)
    (hfeat : st.getFeature pid = some f)
    (hcf : opts.coordFlags f.props.mode = some cf)
    (hmids : cf.midpoints = true)
    (hgeom : f.geometry = Geometry.polygon ring)
    (hne : ring.dropLast ≠ [])
    (hmne : TerraDrawSelectMode.midpointPositions (Geometry.polygon ring)
      ≠ []) :
    (TerraDrawSelectMode.selectFeature opts st pid).1 =
      { selected := some pid,
        selectionPoints := (List.range ring.dropLast.length).map
          (fun k => st.nextId + k),
        midPoints := (List.range
            (TerraDrawSelectMode.segmentsOf ring).length).map
          (fun k => st.nextId + ring.dropLast.length + k) } ∧
    (TerraDrawSelectMode.selectFeature opts st pid).2.2 =
      [Emit.select pid, Emit.change [pid] .update,
        Emit.change ((List.range ring.dropLast.length).map
          (fun k => st.nextId + k)) .create,
        Emit.change ((List.range
            (TerraDrawSelectMode.segmentsOf ring).length).map
          (fun k => st.nextId + ring.dropLast.length + k)) .create] ∧
    (TerraDrawSelectMode.selectFeature opts st pid).2.1.ids =
      st.ids ++ ((List.range ring.dropLast.length).map
          (fun k => st.nextId + k))
        ++ ((List.range (TerraDrawSelectMode.segmentsOf ring).length).map
          (fun k => st.nextId + ring.dropLast.length + k)) ∧
    (TerraDrawSelectMode.selectFeature opts st pid).2.1.nextId =
      st.nextId + ring.dropLast.length
        + (TerraDrawSelectMode.segmentsOf ring).length := by
  unfold TerraDrawSelectMode.selectFeature
  simp only [hfeat, hcf]
  unfold TerraDrawSelectMode.createOverlays
  simp only [hmids, hgeom, TerraDrawSelectMode.selectionPointPositions,
    TerraDrawSelectMode.midpointPositions, if_true]
  rw [if_neg (by simpa using hne),
    if_neg (by simpa using
      (by simpa [TerraDrawSelectMode.midpointPositions] using hmne :
        (TerraDrawSelectMode.segmentsOf ring).map
          (fun s => TerraDrawSelectMode.midpointPos s.1 s.2) ≠ []))]
  refine ⟨?_, ?_, ?_, ?_⟩
  · simp only [Store.create_fst, Store.create_nextId,
      Store.nextId_updateSelected, List.length_map, List.length_zip,
      List.length_range, Nat.min_self]
  · simp only [Store.create_fst, Store.create_nextId,
      Store.nextId_updateSelected, List.length_map, List.length_zip,
      List.length_range, Nat.min_self]
    rfl
  · rw [Store.create_ids, Store.create_ids]
    simp only [Store.create_fst, Store.create_nextId,
      Store.nextId_updateSelected, Store.ids_updateSelected,
      List.length_map, List.length_zip, List.length_range, Nat.min_self,
      List.append_assoc]
  · simp only [Store.create_nextId, Store.nextId_updateSelected,
      List.length_map, List.length_zip, List.length_range, Nat.min_self]

theorem mem_addRange (a k i : Nat) :
    i ∈ (List.range k).map (fun j => a + j) ↔ a ≤ i ∧ i < a + k := by
  simp only [List.mem_map, List.mem_range]
  constructor
  · rintro ⟨j, hj, rfl⟩; omega
  · intro hi; exact ⟨i - a, by omega, by omega⟩


/-- C9.  Selecting a closed polygon (coordinate and midpoint flags enabled)
creates exactly one selection point per distinct vertex — `ring.length - 1`
of them, none for the closing coordinate — and the same number of
midpoints, in one create batch each; deselecting afterwards deletes exactly
those overlay ids (one delete batch each) and restores the store's id list
to the original one. -/
theorem select_overlay_counts_and_deselect
    (opts : TerraDrawSelectMode.Options) (st : Store) (pid : Nat)
    (f : Feature) (cf : TerraDrawSelectMode.CoordinateFlags)
    (ring : List Pos)
    (hwf : st.wf = true)
    (hfeat : st.getFeature pid = some f)
    (hgeom : f.geometry = Geometry.polygon ring)
    (_hclosed : ring.head? = ring.getLast?)
    (_hnodup : ring.dropLast.Nodup)
    (hne : ring.dropLast ≠ [])
    (hcf : opts.coordFlags f.props.mode = some cf)
    (hmids : cf.midpoints = true) :
    (TerraDrawSelectMode.selectFeature opts st pid).1.selectionPoints.length
      = ring.length - 1 ∧
    (TerraDrawSelectMode.selectFeature opts st pid).1.midPoints.length
      = ring.length - 1 ∧
    (TerraDrawSelectMode.selectFeature opts st pid).2.2 =
      [Emit.select pid, Emit.change [pid] .update,
        Emit.change
          (TerraDrawSelectMode.selectFeature opts st pid).1.selectionPoints
          .create,
        Emit.change
          (TerraDrawSelectMode.selectFeature opts st pid).1.midPoints
          .create] ∧
    (TerraDrawSelectMode.deselectCurrent
        (TerraDrawSelectMode.selectFeature opts st pid).1
        (TerraDrawSelectMode.selectFeature opts st pid).2.1).2.2 =
      [Emit.deselect pid, Emit.change [pid] .update,
        Emit.change
          (TerraDrawSelectMode.selectFeature opts st pid).1.selectionPoints
          .delete,
        Emit.change
          (TerraDrawSelectMode.selectFeature opts st pid).1.midPoints
          .delete] ∧
    (TerraDrawSelectMode.deselectCurrent
        (TerraDrawSelectMode.selectFeature opts st pid).1
        (TerraDrawSelectMode.selectFeature opts st pid).2.1).2.1.ids
      = st.ids := by
  have hn0 : 0 < ring.dropLast.length := List.length_pos.mpr hne
  have hlen2 : 2 ≤ ring.length := by
    have := List.length_dropLast ring
    omega
  have hm : (TerraDrawSelectMode.segmentsOf ring).length
      = ring.length - 1 := by
    simp only [TerraDrawSelectMode.segmentsOf, List.length_zip,
      List.length_tail]
    omega
  have hn : ring.dropLast.length = ring.length - 1 :=
    List.length_dropLast ring
  have hmne : TerraDrawSelectMode.midpointPositions (Geometry.polygon ring)
      ≠ [] := by
    simp only [TerraDrawSelectMode.midpointPositions]
    intro hc
    have := congrArg List.length hc
    simp only [List.length_map, List.length_nil, hm] at this
    omega
  obtain ⟨h1, h2, h3, h4⟩ := selectFeature_eval_mid opts st pid f cf ring
    hfeat hcf hmids hgeom hne hmne
  have hidlt : ∀ x ∈ st.ids, x < st.nextId := by
    have hwf' : ∀ g ∈ st.features, g.id < st.nextId := by
      simpa [Store.wf, List.all_eq_true] using hwf
    intro x hx
    obtain ⟨g, hg, rfl⟩ := List.mem_map.mp hx
    exact hwf' g hg
  have hptne : ((List.range ring.dropLast.length).map
      (fun k => st.nextId + k)) ≠ [] := by
    intro hc
    have := congrArg List.length hc
    simp only [List.length_map, List.length_range, List.length_nil] at this
    omega
  have hmidne : ((List.range
      (TerraDrawSelectMode.segmentsOf ring).length).map
      (fun k => st.nextId + ring.dropLast.length + k)) ≠ [] := by
    intro hc
    have := congrArg List.length hc
    simp only [List.length_map, List.length_range, List.length_nil] at this
    omega
  have hdisj1 : ∀ x ∈ st.ids, x ∉ ((List.range ring.dropLast.length).map
      (fun k => st.nextId + k)) := by
    intro x hx hmem
    have h := (mem_addRange _ _ x).mp hmem
    have := hidlt x hx
    omega
  have hdisj2 : ∀ x ∈ ((List.range
      (TerraDrawSelectMode.segmentsOf ring).length).map
      (fun k => st.nextId + ring.dropLast.length + k)),
      x ∉ ((List.range ring.dropLast.length).map
        (fun k => st.nextId + k)) := by
    intro x hx hmem
    have ha := (mem_addRange _ _ x).mp hx
    have hb := (mem_addRange _ _ x).mp hmem
    omega
  have hdisj3 : ∀ x ∈ st.ids, x ∉ ((List.range
      (TerraDrawSelectMode.segmentsOf ring).length).map
      (fun k => st.nextId + ring.dropLast.length + k)) := by
    intro x hx hmem
    have h := (mem_addRange _ _ x).mp hmem
    have := hidlt x hx
    omega
  have hDES : TerraDrawSelectMode.deselectCurrent
      (TerraDrawSelectMode.selectFeature opts st pid).1
      (TerraDrawSelectMode.selectFeature opts st pid).2.1 =
      (TerraDrawSelectMode.State.init,
        ⟨((((TerraDrawSelectMode.selectFeature opts st
              pid).2.1.updateSelected pid false).features.filter
            (fun g => !((((List.range ring.dropLast.length).map
              (fun k => st.nextId + k))).contains g.id))).filter
            (fun g => !((((List.range
              (TerraDrawSelectMode.segmentsOf ring).length).map
              (fun k => st.nextId + ring.dropLast.length
                + k))).contains g.id))),
          (TerraDrawSelectMode.selectFeature opts st pid).2.1.nextId⟩,
        [Emit.deselect pid, Emit.change [pid] .update,
          Emit.change ((List.range ring.dropLast.length).map
            (fun k => st.nextId + k)) .delete,
          Emit.change ((List.range
              (TerraDrawSelectMode.segmentsOf ring).length).map
            (fun k => st.nextId + ring.dropLast.length + k)) .delete]) := by
    rw [h1]
    unfold TerraDrawSelectMode.deselectCurrent
    dsimp only
    rw [deleteOverlays_ok _ _ hptne
      (fun i hi => by
        rw [Store.has_updateSelected, Store.has_iff, h3]
        exact List.mem_append_left _ (List.mem_append_right _ hi))]
    rw [deleteOverlays_ok _ _ hmidne
      (fun i hi => by
        rw [Store.has_iff]
        have hidsT : (⟨(((TerraDrawSelectMode.selectFeature opts st
            pid).2.1.updateSelected pid false).features.filter
            (fun g => !((((List.range ring.dropLast.length).map
              (fun k => st.nextId + k))).contains g.id))),
            ((TerraDrawSelectMode.selectFeature opts st
              pid).2.1.updateSelected pid false).nextId⟩ : Store).ids
            = ((((TerraDrawSelectMode.selectFeature opts st
              pid).2.1.updateSelected pid false).features.map
                (fun g => g.id)).filter
              (fun x => !((((List.range ring.dropLast.length).map
                (fun k => st.nextId + k))).contains x))) :=
          Store.filter_ids _ _
        rw [hidsT]
        rw [List.mem_filter]
        have hu : ((TerraDrawSelectMode.selectFeature opts st
            pid).2.1.updateSelected pid false).features.map
            (fun g => g.id)
            = (TerraDrawSelectMode.selectFeature opts st pid).2.1.ids :=
          Store.ids_updateSelected _ _ _
        rw [hu, h3]
        refine ⟨List.mem_append_right _ hi, ?_⟩
        have := hdisj2 i hi
        simpa using this)]
    rfl
  refine ⟨?_, ?_, ?_, ?_, ?_⟩
  · rw [h1]
    simp [hn]
  · rw [h1]
    simp [hm]
  · rw [h2, h1]
  · rw [hDES, h1]
  · rw [hDES]
    show ((((TerraDrawSelectMode.selectFeature opts st
        pid).2.1.updateSelected pid false).features.filter
        (fun g => !((((List.range ring.dropLast.length).map
          (fun k => st.nextId + k))).contains g.id))).filter
        (fun g => !((((List.range
          (TerraDrawSelectMode.segmentsOf ring).length).map
          (fun k => st.nextId + ring.dropLast.length
            + k))).contains g.id))).map (fun g => g.id) = st.ids
    rw [Store.filter_ids, Store.filter_ids]
    have hu : ((TerraDrawSelectMode.selectFeature opts st
        pid).2.1.updateSelected pid false).features.map (fun g => g.id)
        = (TerraDrawSelectMode.selectFeature opts st pid).2.1.ids :=
      Store.ids_updateSelected _ _ _
    rw [hu, h3]
    simp only [List.filter_append]
    rw [filter_not_contains_of_disjoint _ _ hdisj1,
      filter_not_contains_self,
      filter_not_contains_of_disjoint _ _ hdisj2,
      filter_not_contains_of_disjoint _ _ hdisj3,
      filter_not_contains_self]
    simp

/-- Options for the overlay-count witness: polygons selectable with
draggable-coordinate and midpoint overlays. -/
def c9Opts : TerraDrawSelectMode.Options :=
  { flags := [("polygon",
      { feature := some { coordinates := some { midpoints := true } } })] }

/-- Store for the overlay-count witness: one unit-square polygon, id 0. -/
def c9Store : Store := ⟨[⟨0, .polygon sqRing, { mode := "polygon" }⟩], 1⟩

/-- C9, witness: selecting the square creates exactly 4 selection points
and 4 midpoints, and deselecting restores the store's id list to `[0]`. -/
theorem select_overlay_counts_and_deselect_witness :
    (TerraDrawSelectMode.selectFeature c9Opts c9Store
      0).1.selectionPoints.length = 4 ∧
    (TerraDrawSelectMode.selectFeature c9Opts c9Store
      0).1.midPoints.length = 4 ∧
    (TerraDrawSelectMode.deselectCurrent
        (TerraDrawSelectMode.selectFeature c9Opts c9Store 0).1
        (TerraDrawSelectMode.selectFeature c9Opts c9Store 0).2.1).2.1.ids
      = c9Store.ids := by
  have h := select_overlay_counts_and_deselect c9Opts c9Store 0
    ⟨0, .polygon sqRing, { mode := "polygon" }⟩
    { midpoints := true } sqRing
    rfl rfl rfl rfl
    (by
      show ([((0 : ℚ), (0 : ℚ)), ((0 : ℚ), (1 : ℚ)), ((1 : ℚ), (1 : ℚ)),
        ((1 : ℚ), (0 : ℚ))] : List Pos).Nodup
      norm_num [Prod.ext_iff])
    (by decide) rfl rfl
  exact ⟨h.1, h.2.1, h.2.2.2.2⟩
